import Mathlib

/-!
A verification development for the LifeSim ecosystem simulation.

The simulation core (the per-tick `update` closure of `LifeSim`) is shallowly
embedded below.  Numbers are modelled as exact reals: `Math.hypot` becomes
`Real.sqrt` of the sum of squares, `Math.cos`/`Math.sin`/`Math.PI` become their
real counterparts, and every call to `Math.random()` is modelled by an oracle
`r : ℕ → ℝ` consumed at an explicitly threaded call counter.  `Date.now()` is
modelled by a parameter `now : ℝ` (it only ever feeds food identities, which the
simulation never inspects).  JavaScript's optional agent fields are modelled as
total fields carrying the destructuring defaults the code applies (`0`), and the
`metabolism === undefined` legacy branch is therefore never taken.  Note that in
this embedding division is total with `x / 0 = 0`, whereas in JavaScript a
division by zero of the form `0 / 0` yields `NaN`; the one steering site that
can divide by zero is analysed explicitly below.
-/

inductive AgentType
  | carnivore
  | herbivore
  | neutral
  deriving DecidableEq, Repr

structure Agent where
  id : ℕ
  x : ℝ
  y : ℝ
  dx : ℝ
  dy : ℝ
  energy : ℝ
  age : ℝ
  speed : ℝ
  vision : ℝ
  size : ℝ
  type : AgentType
  reproCooldown : ℝ
  metabolism : ℝ
  lastAteTicks : ℝ
  seedCooldown : ℝ
  stuckTicks : ℝ

structure Food where
  id : ℝ
  x : ℝ
  y : ℝ

structure Params where
  herbivoreSpeed : ℝ
  carnivoreSpeed : ℝ
  foodSpawnRate : ℝ
  timeScale : ℝ
  carnivoreMetabolismScale : ℝ
  carnivoreCatchRadius : ℝ
  carnivoreReproThreshold : ℝ
  maxCarnivores : ℝ
  herbivoreReproThreshold : ℝ
  maxHerbivores : ℝ

structure World where
  agents : List Agent
  food : List Food
  nextId : ℕ

def WORLD_WIDTH : ℝ := 800
def WORLD_HEIGHT : ℝ := 500

/-- `Math.hypot(u, v)`. -/
noncomputable def hypot (u v : ℝ) : ℝ := Real.sqrt (u ^ 2 + v ^ 2)

/-- JavaScript's `(d || 1)`: a zero (falsy) denominator is replaced by `1`. -/
noncomputable def d0 (d : ℝ) : ℝ := if d = 0 then 1 else d

/-- Number of agents of a given kind in a list. -/
def countKind (t : AgentType) (l : List Agent) : ℕ :=
  (l.filter fun a => a.type = t).length

open Classical

/-- `list.reduce` picking the food item nearest to `(x, y)`; the accumulator is
only replaced on a strictly smaller distance. -/
noncomputable def nearestFoodFrom (x y : ℝ) (hd : Food) (tl : List Food) : Food :=
  tl.foldl
    (fun closest f =>
      if hypot (f.x - x) (f.y - y) < hypot (closest.x - x) (closest.y - y) then f else closest)
    hd

/-- `list.reduce` picking the agent nearest to `(x, y)`. -/
noncomputable def nearestAgentFrom (x y : ℝ) (hd : Agent) (tl : List Agent) : Agent :=
  tl.foldl
    (fun closest p =>
      if hypot (p.x - x) (p.y - y) < hypot (closest.x - x) (closest.y - y) then p else closest)
    hd

/-- The herbivore feeding scan: splice out the first food item strictly within
distance `8` of `(x, y)`, returning the remaining list when a hit occurs. -/
noncomputable def eatFirstFood (x y : ℝ) : List Food → Option (List Food)
  | [] => none
  | f :: rest =>
      if hypot (f.x - x) (f.y - y) < 8 then some rest
      else (eatFirstFood x y rest).map fun l => f :: l

/-- The carnivore feeding scan: the first herbivore in the start-of-tick agent
list strictly within the catch radius of `(x, y)`. -/
noncomputable def findPrey (x y radius : ℝ) : List Agent → Option Agent
  | [] => none
  | p :: rest =>
      if p.type = AgentType.herbivore ∧ hypot (p.x - x) (p.y - y) < radius then some p
      else findPrey x y radius rest

/-- Per-kind speed multiplier applied to the agent's innate speed. -/
noncomputable def adjustedSpeed (P : Params) (t : AgentType) (speed : ℝ) : ℝ :=
  match t with
  | AgentType.herbivore => speed * P.herbivoreSpeed
  | AgentType.carnivore => speed * P.carnivoreSpeed
  | AgentType.neutral => speed * 0.8

/-- Per-kind velocity cap. -/
noncomputable def maxVelFor (t : AgentType) : ℝ :=
  if t = AgentType.carnivore then 3.2 else 2.5

/-- Result of the perception/steering phase for one agent. -/
structure SteerRes where
  dx : ℝ
  dy : ℝ
  energy : ℝ
  seedCooldown : ℝ
  food : List Food
  k : ℕ
  pursuing : Prop
  seeded : ℕ

/-- Distance from `(x, y)` to the nearest food item of the non-empty list
`f :: fs`: the denominator of the herbivore food-attraction unit vector. -/
noncomputable def nearestFoodDist (x y : ℝ) (f : Food) (fs : List Food) : ℝ :=
  hypot ((nearestFoodFrom x y f fs).x - x) ((nearestFoodFrom x y f fs).y - y)

/-- Herbivore steering: attraction to the nearest visible food item (note the
unguarded division by `dist`), then flight from the nearest carnivore within
`0.9 × vision` (guarded division). -/
noncomputable def steerHerb (start : List Agent) (pf : List Food) (a : Agent)
    (x y dx dy : ℝ) : ℝ × ℝ × Prop :=
  let s1 : ℝ × ℝ × Prop :=
    match pf with
    | [] => (dx, dy, False)
    | f :: fs =>
        let nf := nearestFoodFrom x y f fs
        let dist := nearestFoodDist x y f fs
        if dist < a.vision then
          (dx + (nf.x - x) / dist * 0.45, dy + (nf.y - y) / dist * 0.45, True)
        else (dx, dy, False)
  match start.filter (fun p => p.type = AgentType.carnivore) with
  | [] => s1
  | h :: hs =>
      let nh := nearestAgentFrom x y h hs
      let pd := hypot (nh.x - x) (nh.y - y)
      if pd < a.vision * 0.9 then
        (s1.1 - (nh.x - x) / d0 pd * 0.35, s1.2.1 - (nh.y - y) / d0 pd * 0.35, s1.2.2)
      else s1

/-- Carnivore steering: velocity-blended pursuit of the nearest visible
herbivore with a low-speed push, wandering otherwise, plus a soft repulsion from
food closer than `12`. -/
noncomputable def steerCarn (start : List Agent) (pf : List Food) (a : Agent)
    (x y dx dy : ℝ) (k : ℕ) (r : ℕ → ℝ) : ℝ × ℝ × ℕ × Prop :=
  match start.filter (fun p => p.type = AgentType.herbivore) with
  | [] => (dx + (r k - 0.5) * 0.06, dy + (r (k + 1) - 0.5) * 0.06, k + 2, False)
  | p :: ps =>
      let n := nearestAgentFrom x y p ps
      let dist := hypot (n.x - x) (n.y - y)
      let s1 : ℝ × ℝ × ℕ × Prop :=
        if dist < a.vision then
          let ux := (n.x - x) / d0 dist
          let uy := (n.y - y) / d0 dist
          let dx1 := dx * 0.85 + ux * 0.7
          let dy1 := dy * 0.85 + uy * 0.7
          let sp := hypot dx1 dy1
          if sp < 0.25 then (dx1 + ux * 0.6, dy1 + uy * 0.6, k, True)
          else (dx1, dy1, k, True)
        else (dx + (r k - 0.5) * 0.06, dy + (r (k + 1) - 0.5) * 0.06, k + 2, False)
      match pf with
      | [] => s1
      | f :: fs =>
          let nf := nearestFoodFrom x y f fs
          let fd := hypot (nf.x - x) (nf.y - y)
          if fd < 12 then
            (s1.1 - (nf.x - x) / d0 fd * 0.5, s1.2.1 - (nf.y - y) / d0 fd * 0.5,
              s1.2.2.1, s1.2.2.2)
          else s1

/-- Neutral steering: random walk, occasional food seeding at the agent's own
location (subject to the seed cooldown), occasional small energy gain. -/
noncomputable def steerNeutral (liveFood : List Food) (a : Agent)
    (x y dx dy energy : ℝ) (k : ℕ) (r : ℕ → ℝ) (now : ℝ) :
    ℝ × ℝ × ℝ × ℝ × List Food × ℕ × ℕ :=
  let dx1 := dx + (r k - 0.5) * 0.1
  let dy1 := dy + (r (k + 1) - 0.5) * 0.1
  let k1 := k + 2
  let sc := a.seedCooldown
  let seedRes : ℝ × List Food × ℕ × ℕ :=
    if sc ≤ 0 then
      if r k1 < 0.02 then
        (250 + (⌊r (k1 + 2) * 200⌋ : ℝ), liveFood ++ [⟨now + r (k1 + 1), x, y⟩], k1 + 3, 1)
      else (sc, liveFood, k1 + 1, 0)
    else if sc > 0 then (sc - 1, liveFood, k1, 0)
    else (sc, liveFood, k1, 0)
  let k2 := seedRes.2.2.1
  let energy1 := if r k2 < 0.002 then energy + 5 else energy
  (dx1, dy1, energy1, seedRes.1, seedRes.2.1, k2 + 1, seedRes.2.2.2)

/-- Dispatch of the steering phase on the agent's kind. -/
noncomputable def steer (start : List Agent) (pf liveFood : List Food)
    (a : Agent) (x y dx dy energy : ℝ) (k : ℕ) (r : ℕ → ℝ) (now : ℝ) : SteerRes :=
  match a.type with
  | AgentType.herbivore =>
      let s := steerHerb start pf a x y dx dy
      ⟨s.1, s.2.1, energy, a.seedCooldown, liveFood, k, s.2.2, 0⟩
  | AgentType.carnivore =>
      let s := steerCarn start pf a x y dx dy k r
      ⟨s.1, s.2.1, energy, a.seedCooldown, liveFood, s.2.2.1, s.2.2.2, 0⟩
  | AgentType.neutral =>
      let s := steerNeutral liveFood a x y dx dy energy k r now
      ⟨s.1, s.2.1, s.2.2.1, s.2.2.2.1, s.2.2.2.2.1, s.2.2.2.2.2.1, False, s.2.2.2.2.2.2⟩

/-- Baseline wander added to every agent, reduced while pursuing and boosted for
non-pursuing carnivores. -/
noncomputable def wanderStage (t : AgentType) (pursuing : Prop) (dx dy : ℝ) (k : ℕ)
    (r : ℕ → ℝ) : ℝ × ℝ × ℕ :=
  let baseWander : ℝ := if t = AgentType.neutral then 0.12 else 0.06
  let searchBoost : ℝ := if t = AgentType.carnivore ∧ ¬pursuing then 2.0 else 1.0
  let ws : ℝ := if pursuing then baseWander * 0.15 else baseWander * searchBoost
  (dx + (r k - 0.5) * ws, dy + (r (k + 1) - 0.5) * ws, k + 2)

/-- Kinematics: move by the kind-adjusted speed and global time scale, then damp
the velocity. -/
noncomputable def moveStage (P : Params) (t : AgentType) (speed x y dx dy : ℝ) :
    ℝ × ℝ × ℝ × ℝ :=
  (x + dx * adjustedSpeed P t speed * P.timeScale,
    y + dy * adjustedSpeed P t speed * P.timeScale, dx * 0.97, dy * 0.97)

/-- Velocity post-processing: cap to the per-kind maximum, add a random kick
when nearly stopped, and apply the stuck-counter impulse. -/
noncomputable def velStage (t : AgentType) (dx dy stuck : ℝ) (k : ℕ) (r : ℕ → ℝ) :
    ℝ × ℝ × ℝ × ℕ :=
  let maxVel := maxVelFor t
  let spd := hypot dx dy
  let c : ℝ × ℝ := if spd > maxVel then (dx / spd * maxVel, dy / spd * maxVel) else (dx, dy)
  let kck : ℝ × ℝ × ℕ :=
    if spd < 0.08 then
      (c.1 + Real.cos (r k * Real.pi * 2) * 0.35, c.2 + Real.sin (r k * Real.pi * 2) * 0.35,
        k + 1)
    else (c.1, c.2, k)
  let stuck1 : ℝ := if spd < 0.12 then stuck + 1 else if stuck > 0 then stuck - 1 else stuck
  if stuck1 > 60 then
    (kck.1 + Real.cos (r kck.2.2 * Real.pi * 2) * 1.0,
      kck.2.1 + Real.sin (r kck.2.2 * Real.pi * 2) * 1.0, 0, kck.2.2 + 1)
  else (kck.1, kck.2.1, stuck1, kck.2.2)

/-- Boundary handling: reflect the velocity sign on a crossed axis, then clamp
the position inside the arena with an inward nudge. -/
noncomputable def boundsStage (x y dx dy : ℝ) : ℝ × ℝ × ℝ × ℝ :=
  let dx1 := if x < 0 ∨ x > WORLD_WIDTH then -dx else dx
  let dy1 := if y < 0 ∨ y > WORLD_HEIGHT then -dy else dy
  let px : ℝ × ℝ :=
    if x < 1 then (1, |dx1| + 0.2)
    else if x > WORLD_WIDTH - 1 then (WORLD_WIDTH - 1, -|dx1| - 0.2)
    else (x, dx1)
  let py : ℝ × ℝ :=
    if y < 1 then (1, |dy1| + 0.2)
    else if y > WORLD_HEIGHT - 1 then (WORLD_HEIGHT - 1, -|dy1| - 0.2)
    else (y, dy1)
  (px.1, py.1, px.2, py.2)

/-- A herbivore child, inheriting mutated speed and vision. -/
noncomputable def herbChild (nextId : ℕ) (x y dx dy speed vision : ℝ) (k : ℕ)
    (r : ℕ → ℝ) : Agent :=
  { id := nextId
    x := x + (r (k + 2) - 0.5) * 10
    y := y + (r (k + 3) - 0.5) * 10
    dx := dx + (r (k + 4) - 0.5) * 0.5
    dy := dy + (r (k + 5) - 0.5) * 0.5
    energy := 35
    age := 0
    speed := max 0.4 (min 2.0 (speed * (0.95 + r k * 0.1)))
    vision := max 30 (min 70 (vision * (0.95 + r (k + 1) * 0.1)))
    size := 5
    type := AgentType.herbivore
    reproCooldown := 600
    metabolism := max 0.02 (0.07 + (r (k + 6) - 0.5) * 0.03)
    lastAteTicks := 0
    seedCooldown := 0
    stuckTicks := 0 }

/-- A carnivore child, inheriting mutated speed and vision. -/
noncomputable def carnChild (nextId : ℕ) (x y dx dy speed vision : ℝ) (k : ℕ)
    (r : ℕ → ℝ) : Agent :=
  { id := nextId
    x := x + (r (k + 2) - 0.5) * 10
    y := y + (r (k + 3) - 0.5) * 10
    dx := dx + (r (k + 4) - 0.5) * 0.5
    dy := dy + (r (k + 5) - 0.5) * 0.5
    energy := 70
    age := 0
    speed := max 0.6 (min 2.2 (speed * (0.95 + r k * 0.1)))
    vision := max 50 (min 90 (vision * (0.95 + r (k + 1) * 0.1)))
    size := 5
    type := AgentType.carnivore
    reproCooldown := 700
    metabolism := max 0.02 (0.14 + (r (k + 6) - 0.5) * 0.03)
    lastAteTicks := 0
    seedCooldown := 0
    stuckTicks := 0 }

/-- Mutable per-tick accumulation state: the working food list, the set of
herbivores marked eaten, the output agent list, the herbivore spawn counter,
the identity counter, the random-call counter, and observational event logs
(predations, spawn events tagged with whether the parent was already marked
eaten, and food consumption/seeding counters). -/
structure TickState where
  food : List Food
  eaten : List ℕ
  out : List Agent
  spawnedHerbivores : ℕ
  nextId : ℕ
  k : ℕ
  preds : List (ℕ × ℕ)
  spawns : List (ℕ × Bool)
  foodEaten : ℕ
  foodSeeded : ℕ

/-- Result of processing one agent, before the survival push. -/
structure StepRes where
  cand : Agent
  child : Option Agent
  food : List Food
  eaten : List ℕ
  spawnedHerbivores : ℕ
  nextId : ℕ
  k : ℕ
  preds : List (ℕ × ℕ)
  spawns : List (ℕ × Bool)
  foodEaten : ℕ
  foodSeeded : ℕ

/-- Carnivore metabolic starvation factor, evaluated on the post-increment
ticks-since-fed counter. -/
noncomputable def starvationFactor (t : AgentType) (cH : ℕ) (lastAte : ℝ) : ℝ :=
  if t = AgentType.carnivore then
    (if cH = 0 then 1.2 else 0) +
      (if lastAte > 900 then 1.0 else if lastAte > 600 then 0.6
       else if lastAte > 300 then 0.3 else 0)
  else 0

/-- The full per-agent body of the tick loop: steering, baseline wander,
kinematics, velocity post-processing, boundary handling, feeding, reproduction
and metabolism, producing the updated candidate agent, the optional child, and
all per-tick accumulator updates. `pf` is the food list handed to perception;
the working food list `st.food` is the one drained by feeding. -/
noncomputable def stepCore (P : Params) (start : List Agent) (cH cC : ℕ)
    (pf : List Food) (st : TickState) (a : Agent) (r : ℕ → ℝ) (now : ℝ) : StepRes :=
  let s := steer start pf st.food a a.x a.y a.dx a.dy a.energy st.k r now
  let w := wanderStage a.type s.pursuing s.dx s.dy s.k r
  let m := moveStage P a.type a.speed a.x a.y w.1 w.2.1
  let v := velStage a.type m.2.2.1 m.2.2.2 a.stuckTicks w.2.2 r
  let b := boundsStage m.1 m.2.1 v.1 v.2.1
  let x := b.1
  let y := b.2.1
  let dx := b.2.2.1
  let dy := b.2.2.2
  let stuck := v.2.2.1
  let k0 := v.2.2.2
  -- feeding
  let feed : ℝ × ℝ × List Food × List ℕ × ℕ × List (ℕ × ℕ) :=
    match a.type with
    | AgentType.herbivore =>
        match eatFirstFood x y s.food with
        | some l => (s.energy + 35, 0, l, st.eaten, 1, st.preds)
        | none => (s.energy, a.lastAteTicks, s.food, st.eaten, 0, st.preds)
    | AgentType.carnivore =>
        match findPrey x y P.carnivoreCatchRadius start with
        | some p => (s.energy + 45, 0, s.food, st.eaten.insert p.id, 0,
            st.preds ++ [(a.id, p.id)])
        | none => (s.energy, a.lastAteTicks, s.food, st.eaten, 0, st.preds)
    | AgentType.neutral => (s.energy, a.lastAteTicks, s.food, st.eaten, 0, st.preds)
  let energy1 := feed.1
  let lastAte1 := feed.2.1
  -- reproduction
  let rep : ℝ × ℝ × Option Agent × ℕ × ℕ × ℕ × List (ℕ × Bool) :=
    match a.type with
    | AgentType.herbivore =>
        if energy1 > P.herbivoreReproThreshold ∧ a.reproCooldown ≤ 0 ∧
            ((cH : ℝ) + (st.spawnedHerbivores : ℝ) < P.maxHerbivores) then
          (45, 600, some (herbChild st.nextId x y dx dy a.speed a.vision k0 r),
            k0 + 7, st.nextId + 1, st.spawnedHerbivores + 1,
            st.spawns ++ [(a.id, decide (a.id ∈ feed.2.2.2.1))])
        else (energy1, a.reproCooldown, none, k0, st.nextId, st.spawnedHerbivores, st.spawns)
    | AgentType.carnivore =>
        if energy1 > P.carnivoreReproThreshold ∧ a.reproCooldown ≤ 0 ∧
            ((cC : ℝ) < P.maxCarnivores) then
          (90, 700, some (carnChild st.nextId x y dx dy a.speed a.vision k0 r),
            k0 + 7, st.nextId + 1, st.spawnedHerbivores,
            st.spawns ++ [(a.id, decide (a.id ∈ feed.2.2.2.1))])
        else (energy1, a.reproCooldown, none, k0, st.nextId, st.spawnedHerbivores, st.spawns)
    | AgentType.neutral =>
        (energy1, a.reproCooldown, none, k0, st.nextId, st.spawnedHerbivores, st.spawns)
  let energy2 := rep.1
  let reproCd1 := rep.2.1
  -- metabolism and survival bookkeeping
  let size1 : ℝ := max 3 (min 10 (3 + energy2 * 0.03))
  let lastAte2 := lastAte1 + 1
  let drain : ℝ :=
    (if a.type = AgentType.carnivore then a.metabolism * P.carnivoreMetabolismScale
     else a.metabolism) * (1 + starvationFactor a.type cH lastAte2) * P.timeScale
  let energy3 := energy2 - drain
  let age1 := a.age + 0.05
  let reproCd2 := if reproCd1 > 0 then reproCd1 - 1 else reproCd1
  { cand :=
      { a with
        x := x
        y := y
        dx := dx
        dy := dy
        energy := energy3
        age := age1
        size := size1
        reproCooldown := reproCd2
        lastAteTicks := lastAte2
        seedCooldown := s.seedCooldown
        stuckTicks := stuck }
    child := rep.2.2.1
    food := feed.2.2.1
    eaten := feed.2.2.2.1
    spawnedHerbivores := rep.2.2.2.2.2.1
    nextId := rep.2.2.2.2.1
    k := rep.2.2.2.1
    preds := feed.2.2.2.2.2
    spawns := rep.2.2.2.2.2.2
    foodEaten := st.foodEaten + feed.2.2.2.2.1
    foodSeeded := st.foodSeeded + s.seeded }

/-- The survival condition for pushing the updated agent into the output set. -/
def stepKeep (eaten : List ℕ) (a cand : Agent) : Prop :=
  0 < cand.energy ∧ cand.age < 800 ∧
    ¬(a.type = AgentType.herbivore ∧ a.id ∈ eaten)

/-- Process one agent: run the step body, append the child (if any) and then the
surviving candidate to the output list. -/
noncomputable def stepAgent (P : Params) (start : List Agent) (cH cC : ℕ)
    (pf : List Food) (st : TickState) (a : Agent) (r : ℕ → ℝ) (now : ℝ) : TickState :=
  let sr := stepCore P start cH cC pf st a r now
  { food := sr.food
    eaten := sr.eaten
    out := st.out ++ sr.child.toList ++ (if stepKeep sr.eaten a sr.cand then [sr.cand] else [])
    spawnedHerbivores := sr.spawnedHerbivores
    nextId := sr.nextId
    k := sr.k
    preds := sr.preds
    spawns := sr.spawns
    foodEaten := sr.foodEaten
    foodSeeded := sr.foodSeeded }

/-- The scarcity boost raising the food spawn probability when herbivores are
scarce. -/
noncomputable def scarcityBoost (hc : ℕ) : ℝ :=
  if hc < 40 then 3 else if hc < 70 then 1.8 else 1

/-- The food list after the pre-pass probabilistic spawn. -/
noncomputable def foodAfterSpawn (w : World) (P : Params) (r : ℕ → ℝ) (now : ℝ) :
    List Food :=
  if r 0 < P.foodSpawnRate * scarcityBoost (countKind AgentType.herbivore w.agents) then
    w.food ++ [⟨now, r 1 * WORLD_WIDTH, r 2 * WORLD_HEIGHT⟩]
  else w.food

/-- Random-call counter after the pre-pass spawn. -/
noncomputable def kAfterSpawn (w : World) (P : Params) (r : ℕ → ℝ) : ℕ :=
  if r 0 < P.foodSpawnRate * scarcityBoost (countKind AgentType.herbivore w.agents) then 3
  else 1

/-- The initial per-tick accumulation state. -/
noncomputable def initTickState (w : World) (P : Params) (r : ℕ → ℝ) (now : ℝ) :
    TickState :=
  ⟨foodAfterSpawn w P r now, [], [], 0, w.nextId, kAfterSpawn w P r, [], [], 0, 0⟩

/-- One tick of the simulation, as the accumulated tick state: each agent's
perception reads the live working food list (`st.food`), exactly as the source
reads `foodRef.current` while draining it. -/
noncomputable def updateState (w : World) (P : Params) (r : ℕ → ℝ) (now : ℝ) :
    TickState :=
  let cH := countKind AgentType.herbivore w.agents
  let cC := countKind AgentType.carnivore w.agents
  w.agents.foldl (fun st a => stepAgent P w.agents cH cC st.food st a r now)
    (initTickState w P r now)

/-- One tick of the simulation (`advance`). -/
noncomputable def update (w : World) (P : Params) (r : ℕ → ℝ) (now : ℝ) : World :=
  let st := updateState w P r now
  ⟨st.out, st.food, st.nextId⟩

/-- Modelled from the spec: the tick as specified in section 4.1 step 2, where
every agent's perception reads the start-of-tick (post-spawn) Food Set instead
of the partially updated working list.  Feeding still drains the working
list. -/
noncomputable def updateStateSnap (w : World) (P : Params) (r : ℕ → ℝ) (now : ℝ) :
    TickState :=
  let cH := countKind AgentType.herbivore w.agents
  let cC := countKind AgentType.carnivore w.agents
  w.agents.foldl (fun st a => stepAgent P w.agents cH cC (foodAfterSpawn w P r now) st a r now)
    (initTickState w P r now)

/-- Modelled from the spec: `advance` with snapshot perception. -/
noncomputable def updateSnap (w : World) (P : Params) (r : ℕ → ℝ) (now : ℝ) : World :=
  let st := updateStateSnap w P r now
  ⟨st.out, st.food, st.nextId⟩

/-- Initial agent kind from the type roll. -/
noncomputable def initType (t : ℝ) : AgentType :=
  if t < 0.55 then AgentType.herbivore
  else if t < 0.9 then AgentType.neutral
  else AgentType.carnivore

/-- One randomized initial agent (`initializeWorld` loop body). -/
noncomputable def mkInitAgent (r : ℕ → ℝ) (i k : ℕ) : Agent :=
  let t := initType (r k)
  let baseEnergy : ℝ :=
    if t = AgentType.herbivore then 50 else if t = AgentType.carnivore then 55 else 40
  let baseMetabolism : ℝ :=
    if t = AgentType.carnivore then 0.14 else if t = AgentType.herbivore then 0.07 else 0.055
  { id := i
    x := r (k + 2) * WORLD_WIDTH
    y := r (k + 3) * WORLD_HEIGHT
    dx := (r (k + 4) - 0.5) * 2
    dy := (r (k + 5) - 0.5) * 2
    energy := baseEnergy
    age := 0
    speed := 0.5 + r (k + 6) * 1.2
    vision := 40 + r (k + 7) * 20
    size := 5
    type := t
    reproCooldown := (⌊r (k + 8) * 300⌋ : ℝ)
    metabolism := max 0.02 (baseMetabolism + (r (k + 1) - 0.5) * 0.03)
    lastAteTicks := (⌊r (k + 9) * 200⌋ : ℝ)
    seedCooldown := if t = AgentType.neutral then 150 + (⌊r (k + 10) * 200⌋ : ℝ) else 0
    stuckTicks := 0 }

/-- The randomized initial agent list, threading the random-call counter (a
neutral consumes one extra call for its seed cooldown). -/
noncomputable def mkInitAgents (r : ℕ → ℝ) : ℕ → ℕ → ℕ → List Agent × ℕ
  | 0, _, k => ([], k)
  | n + 1, i, k =>
      let a := mkInitAgent r i k
      let rest := mkInitAgents r n (i + 1)
        (k + (if initType (r k) = AgentType.neutral then 11 else 10))
      (a :: rest.1, rest.2)

/-- The randomized initial food list. -/
noncomputable def mkInitFoods (r : ℕ → ℝ) : ℕ → ℕ → ℕ → List Food
  | 0, _, _ => []
  | n + 1, i, k =>
      ⟨(i : ℝ), r k * WORLD_WIDTH, r (k + 1) * WORLD_HEIGHT⟩ ::
        mkInitFoods r n (i + 1) (k + 2)

/-- `initializeWorld`: 100 randomized agents followed by 60 randomized food
items. -/
noncomputable def initializeWorld (r : ℕ → ℝ) : World :=
  let ag := mkInitAgents r 100 0 0
  ⟨ag.1, mkInitFoods r 60 0 ag.2, 100⟩

/-!
Concrete parameter sets, oracles and worlds used to evaluate the tick on
explicit inputs.  All agents sit on the horizontal line `y = 250` with zero
vertical velocity, so every distance the tick computes is along the x-axis.
-/

/-- The slider defaults of the component. -/
noncomputable def P0 : Params := ⟨1, 1, 0.02, 0.7, 1, 8, 180, 80, 150, 220⟩

/-- The defaults with the carnivore population cap set to `3`. -/
noncomputable def P3 : Params := ⟨1, 1, 0.02, 0.7, 1, 8, 180, 3, 150, 220⟩

/-- The defaults with the carnivore population cap set to `0`. -/
noncomputable def Pz : Params := ⟨1, 1, 0.02, 0.7, 1, 8, 180, 0, 150, 220⟩

/-- A random oracle returning `0.5` on every call: all `(rand - 0.5)` wander
and mutation terms vanish, no probabilistic spawn fires, and the minimum-speed
kick angle is `π`. -/
noncomputable def rHalf : ℕ → ℝ := fun _ => 0.5

/-- A random oracle returning `0.3` on every call: reproduction offsets become
`-2` (position) and `-0.1` (velocity). -/
noncomputable def r03 : ℕ → ℝ := fun _ => 0.3

/-- A hungry carnivore sitting exactly on the herbivore it hunts. -/
noncomputable def cA1 : Agent :=
  ⟨1, 100, 250, 0, 0, 55, 0, 1, 40, 5, AgentType.carnivore, 300, 0.1, 0, 0, 0⟩

/-- A second identical carnivore with its own identity. -/
noncomputable def cA2 : Agent :=
  ⟨2, 100, 250, 0, 0, 55, 0, 1, 40, 5, AgentType.carnivore, 300, 0.1, 0, 0, 0⟩

/-- A herbivore above the reproduction threshold with an elapsed cooldown. -/
noncomputable def hFat : Agent :=
  ⟨10, 100, 250, 0, 0, 200, 0, 1, 40, 5, AgentType.herbivore, 0, 0.07, 0, 0, 0⟩

/-- Two carnivores and one fat herbivore stacked on one point: the first
carnivore eats the herbivore, the herbivore then still reproduces, and the
second carnivore eats the same herbivore again. -/
noncomputable def wC1 : World := ⟨[cA1, hFat, cA2], [], 100⟩

/-- A plain herbivore at distance `3` from `cA1`. -/
noncomputable def hPrey : Agent :=
  ⟨0, 103, 250, 0, 0, 50, 0, 1, 40, 5, AgentType.herbivore, 100, 0.07, 0, 0, 0⟩

/-- Predator before prey in the iteration order. -/
noncomputable def wC2a : World := ⟨[cA1, hPrey], [], 100⟩

/-- Prey before predator in the iteration order. -/
noncomputable def wC2b : World := ⟨[hPrey, cA1], [], 100⟩

/-- A carnivore above the reproduction threshold with an elapsed cooldown. -/
noncomputable def rCarn1 : Agent :=
  ⟨0, 100, 250, 0, 0, 200, 0, 1, 60, 5, AgentType.carnivore, 0, 0.1, 0, 0, 0⟩

/-- A second reproducing carnivore. -/
noncomputable def rCarn2 : Agent :=
  ⟨1, 200, 250, 0, 0, 200, 0, 1, 60, 5, AgentType.carnivore, 0, 0.1, 0, 0, 0⟩

/-- Two reproducing carnivores under the cap `maxCarnivores = 3`. -/
noncomputable def wC3 : World := ⟨[rCarn1, rCarn2], [], 100⟩

/-- A herbivore at distance `3` from the single food item. -/
noncomputable def hEater : Agent :=
  ⟨0, 100, 250, 0, 0, 50, 0, 1, 40, 5, AgentType.herbivore, 100, 0.07, 0, 0, 0⟩

/-- A herbivore at distance `17` from the single food item, within vision. -/
noncomputable def hWatcher : Agent :=
  ⟨1, 120, 250, 0, 0, 50, 0, 1, 40, 5, AgentType.herbivore, 100, 0.07, 0, 0, 0⟩

/-- The single food item both herbivores can see. -/
noncomputable def f5 : Food := ⟨0, 103, 250⟩

/-- Two herbivores and one food item: the first eats it, changing what the
second perceives. -/
noncomputable def wC5 : World := ⟨[hEater, hWatcher], [f5], 100⟩

/-- A reproducing herbivore about to be clamped onto the left arena edge. -/
noncomputable def edgeHerb : Agent :=
  ⟨0, 0.5, 250, -1, 0, 200, 0, 1, 40, 5, AgentType.herbivore, 0, 0.07, 0, 0, 0⟩

/-- One reproducing herbivore at the left edge. -/
noncomputable def wC6 : World := ⟨[edgeHerb], [], 100⟩

/-- A carnivore at full speed crossing the left boundary. -/
noncomputable def fastCarn : Agent :=
  ⟨0, 2, 250, -4, 0, 100, 0, 1, 40, 5, AgentType.carnivore, 300, 0.1, 0, 0, 0⟩

/-- One fast carnivore about to be reflected and nudged. -/
noncomputable def wC7 : World := ⟨[fastCarn], [], 1⟩

/-- A food item lying exactly at `hEater`'s position. -/
noncomputable def f8 : Food := ⟨0, 100, 250⟩

/-- The empty world. -/
noncomputable def wEmpty : World := ⟨[], [], 0⟩

/-! Basic facts about the geometry helpers and agent kinds. -/

@[simp] lemma carn_eq_herb : (AgentType.carnivore = AgentType.herbivore) = False :=
  eq_false fun h => nomatch h
@[simp] lemma herb_eq_carn : (AgentType.herbivore = AgentType.carnivore) = False :=
  eq_false fun h => nomatch h
@[simp] lemma carn_eq_neut : (AgentType.carnivore = AgentType.neutral) = False :=
  eq_false fun h => nomatch h
@[simp] lemma neut_eq_carn : (AgentType.neutral = AgentType.carnivore) = False :=
  eq_false fun h => nomatch h
@[simp] lemma herb_eq_neut : (AgentType.herbivore = AgentType.neutral) = False :=
  eq_false fun h => nomatch h
@[simp] lemma neut_eq_herb : (AgentType.neutral = AgentType.herbivore) = False :=
  eq_false fun h => nomatch h

/-- The fast carnivore of `wC7` after one tick. -/
noncomputable def fastCarnOut : Agent :=
  { fastCarn with
    x := 1
    y := 250
    dx := 3.4
    dy := 0
    energy := 99.846
    age := 0.05
    size := 6
    reproCooldown := 299
    lastAteTicks := 1
    seedCooldown := 0
    stuckTicks := 0 }

noncomputable def cA1out : Agent :=
  { cA1 with
    x := 100
    y := 250
    dx := -0.35
    dy := 0
    energy := 99.93
    age := 0.05
    size := 6
    reproCooldown := 299
    lastAteTicks := 1
    seedCooldown := 0
    stuckTicks := 1 }

noncomputable def cA2out : Agent :=
  { cA2 with
    x := 100
    y := 250
    dx := -0.35
    dy := 0
    energy := 99.93
    age := 0.05
    size := 6
    reproCooldown := 299
    lastAteTicks := 1
    seedCooldown := 0
    stuckTicks := 1 }

noncomputable def hChild : Agent :=
  ⟨100, 100, 250, -0.35, 0, 35, 0, 1, 40, 5, AgentType.herbivore, 600, 0.07, 0, 0, 0⟩

noncomputable def hFatOut : Agent :=
  { hFat with
    x := 100
    y := 250
    dx := -0.35
    dy := 0
    energy := 44.951
    age := 0.05
    size := 4.35
    reproCooldown := 599
    lastAteTicks := 1
    seedCooldown := 0
    stuckTicks := 1 }

noncomputable def cA1preyOut : Agent :=
  { cA1 with
    x := 100.49
    y := 250
    dx := 0.679
    dy := 0
    energy := 99.93
    age := 0.05
    size := 6
    reproCooldown := 299
    lastAteTicks := 1
    seedCooldown := 0
    stuckTicks := 0 }

noncomputable def hPreyOut : Agent :=
  { hPrey with
    x := 103.245
    y := 250
    dx := 0.3395
    dy := 0
    energy := 49.951
    age := 0.05
    size := 4.5
    reproCooldown := 99
    lastAteTicks := 1
    seedCooldown := 0
    stuckTicks := 0 }

noncomputable def cChild1 : Agent :=
  ⟨100, 100, 250, -0.35, 0, 70, 0, 1, 60, 5, AgentType.carnivore, 700, 0.14, 0, 0, 0⟩

noncomputable def cChild2 : Agent :=
  ⟨101, 200, 250, -0.35, 0, 70, 0, 1, 60, 5, AgentType.carnivore, 700, 0.14, 0, 0, 0⟩

noncomputable def rCarn1out : Agent :=
  { rCarn1 with
    x := 100
    y := 250
    dx := -0.35
    dy := 0
    energy := 89.846
    age := 0.05
    size := 5.7
    reproCooldown := 699
    lastAteTicks := 1
    seedCooldown := 0
    stuckTicks := 1 }

noncomputable def rCarn2out : Agent :=
  { rCarn2 with
    x := 200
    y := 250
    dx := -0.35
    dy := 0
    energy := 89.846
    age := 0.05
    size := 5.7
    reproCooldown := 699
    lastAteTicks := 1
    seedCooldown := 0
    stuckTicks := 1 }

noncomputable def hEaterOut : Agent :=
  { hEater with
    x := 100.315
    y := 250
    dx := 0.4365
    dy := 0
    energy := 84.951
    age := 0.05
    size := 5.55
    reproCooldown := 99
    lastAteTicks := 1
    seedCooldown := 0
    stuckTicks := 0 }

noncomputable def hWatcherOut : Agent :=
  { hWatcher with
    x := 120
    y := 250
    dx := -0.35
    dy := 0
    energy := 49.951
    age := 0.05
    size := 4.5
    reproCooldown := 99
    lastAteTicks := 1
    seedCooldown := 0
    stuckTicks := 1 }

noncomputable def hWatcherSnapOut : Agent :=
  { hWatcher with
    x := 119.685
    y := 250
    dx := -0.4365
    dy := 0
    energy := 49.951
    age := 0.05
    size := 4.5
    reproCooldown := 99
    lastAteTicks := 1
    seedCooldown := 0
    stuckTicks := 0 }

noncomputable def hChild6 : Agent :=
  ⟨100, -1, 247.9916, 1.08164, -0.11164, 35, 0, 0.98, 39.2, 5, AgentType.herbivore,
    600, 0.064, 0, 0, 0⟩

noncomputable def edgeHerbOut : Agent :=
  { edgeHerb with
    x := 1
    y := 249.9916
    dx := 1.18164
    dy := -0.01164
    energy := 44.951
    age := 0.05
    size := 4.35
    reproCooldown := 599
    lastAteTicks := 1
    seedCooldown := 0
    stuckTicks := 0 }

/-- The tick pass over a list of agents, starting from an accumulation state:
`updateState` is this fold applied to the full start-of-tick agent list. -/
noncomputable def tickFold (P : Params) (start : List Agent) (cH cC : ℕ)
    (r : ℕ → ℝ) (now : ℝ) (st : TickState) (l : List Agent) : TickState :=
  l.foldl (fun st a => stepAgent P start cH cC st.food st a r now) st

/-- The accumulation state after processing the first `n` agents of the tick. -/
noncomputable def stateAfter (w : World) (P : Params) (r : ℕ → ℝ) (now : ℝ)
    (n : ℕ) : TickState :=
  tickFold P w.agents (countKind AgentType.herbivore w.agents)
    (countKind AgentType.carnivore w.agents) r now (initTickState w P r now)
    (w.agents.take n)

/-- The step-body result for the `i`-th agent of the tick, evaluated in the
state left by the agents before it. -/
noncomputable def stepCoreAt (w : World) (P : Params) (r : ℕ → ℝ) (now : ℝ)
    (i : Fin w.agents.length) : StepRes :=
  stepCore P w.agents (countKind AgentType.herbivore w.agents)
    (countKind AgentType.carnivore w.agents) (stateAfter w P r now i.1).food
    (stateAfter w P r now i.1) (w.agents.get i) r now

lemma hypot_nonneg (u v : ℝ) : 0 ≤ hypot u v := Real.sqrt_nonneg _

lemma sq_hypot (u v : ℝ) : hypot u v ^ 2 = u ^ 2 + v ^ 2 :=
  Real.sq_sqrt (by positivity)

lemma hypot_abs (u : ℝ) : hypot u 0 = |u| := by
  simp [hypot, Real.sqrt_sq_eq_abs]

lemma hypot_of_nonneg {u : ℝ} (h : 0 ≤ u) : hypot u 0 = u := by
  rw [hypot_abs, abs_of_nonneg h]

lemma hypot_of_nonpos {u : ℝ} (h : u ≤ 0) : hypot u 0 = -u := by
  rw [hypot_abs, abs_of_nonpos h]

lemma hypot_lt_iff {c : ℝ} (hc : 0 < c) (u v : ℝ) :
    hypot u v < c ↔ u ^ 2 + v ^ 2 < c ^ 2 := by
  rw [hypot, Real.sqrt_lt' hc]

lemma hypot_le_of_sq {u v c : ℝ} (hc : 0 ≤ c) (h : u ^ 2 + v ^ 2 ≤ c ^ 2) :
    hypot u v ≤ c := by
  have := Real.sqrt_le_sqrt h
  rwa [Real.sqrt_sq hc] at this

lemma hypot_le_iff {c : ℝ} (hc : 0 ≤ c) (u v : ℝ) :
    hypot u v ≤ c ↔ u ^ 2 + v ^ 2 ≤ c ^ 2 := by
  constructor
  · intro h
    have h2 : hypot u v ^ 2 ≤ c ^ 2 := by
      have := hypot_nonneg u v
      nlinarith
    rwa [sq_hypot] at h2
  · exact hypot_le_of_sq hc

lemma cos_rHalf_angle : Real.cos (1 / 2 * Real.pi * 2) = -1 := by
  rw [show (1 / 2 : ℝ) * Real.pi * 2 = Real.pi by ring, Real.cos_pi]

lemma sin_rHalf_angle : Real.sin (1 / 2 * Real.pi * 2) = 0 := by
  rw [show (1 / 2 : ℝ) * Real.pi * 2 = Real.pi by ring, Real.sin_pi]

/-! Evaluation of one tick on the concrete worlds. -/

lemma step_fastCarn :
    stepCore P0 [fastCarn] 0 1 [] ⟨[], [], [], 0, 1, 1, [], [], 0, 0⟩ fastCarn rHalf 0 =
    { cand := fastCarnOut
      child := none
      food := []
      eaten := []
      spawnedHerbivores := 0
      nextId := 1
      k := 5
      preds := []
      spawns := []
      foodEaten := 0
      foodSeeded := 0 } := by
  norm_num [stepCore, steer, steerCarn, wanderStage, moveStage, velStage, boundsStage,
    adjustedSpeed, maxVelFor, starvationFactor, findPrey, fastCarn, fastCarnOut, P0, rHalf,
    List.filter_cons, List.filter_nil, decide_eq_true_eq, hypot_of_nonneg, hypot_of_nonpos,
    abs_of_nonneg, abs_of_nonpos, WORLD_WIDTH, WORLD_HEIGHT]

lemma update_wC7 : (update wC7 P0 rHalf 0).agents = [fastCarnOut] := by
  have hinit : initTickState wC7 P0 rHalf 0 = ⟨[], [], [], 0, 1, 1, [], [], 0, 0⟩ := by
    norm_num [initTickState, foodAfterSpawn, kAfterSpawn, countKind, scarcityBoost,
      wC7, P0, rHalf, fastCarn, List.filter_cons, List.filter_nil, decide_eq_true_eq]
  have hH : countKind AgentType.herbivore [fastCarn] = 0 := by
    norm_num [countKind, fastCarn, List.filter_cons, List.filter_nil, decide_eq_true_eq]
  have hC : countKind AgentType.carnivore [fastCarn] = 1 := by
    norm_num [countKind, fastCarn, List.filter_cons, List.filter_nil, decide_eq_true_eq]
  simp only [update, updateState, show wC7.agents = [fastCarn] from rfl, hinit, hH, hC,
    List.foldl_cons, List.foldl_nil, stepAgent, step_fastCarn]
  norm_num [stepKeep, fastCarnOut, fastCarn]

/-! wC1 evaluation -/

lemma stepA_cA1 (o : List Agent) :
    stepAgent P0 [cA1, hFat, cA2] 1 2 [] ⟨[], [], o, 0, 100, 1, [], [], 0, 0⟩ cA1 rHalf 0 =
    ⟨[], [10], o ++ [cA1out], 0, 100, 4, [(1, 10)], [], 0, 0⟩ := by
  norm_num [stepAgent, stepCore, steer, steerCarn, wanderStage, moveStage, velStage,
    boundsStage, adjustedSpeed, maxVelFor, starvationFactor, findPrey, stepKeep, d0,
    cA1, cA2, hFat, cA1out, P0, rHalf, List.filter_cons, List.filter_nil,
    decide_eq_true_eq, hypot_of_nonneg, hypot_of_nonpos, abs_of_nonneg, abs_of_nonpos,
    WORLD_WIDTH, WORLD_HEIGHT, cos_rHalf_angle, sin_rHalf_angle, List.insert,
    nearestAgentFrom]

lemma stepA_hFat (o : List Agent) :
    stepAgent P0 [cA1, hFat, cA2] 1 2 [] ⟨[], [10], o, 0, 100, 4, [(1, 10)], [], 0, 0⟩
      hFat rHalf 0 =
    ⟨[], [10], o ++ [hChild], 1, 101, 14, [(1, 10)], [(10, true)], 0, 0⟩ := by
  norm_num [stepAgent, stepCore, steer, steerHerb, herbChild, wanderStage, moveStage,
    velStage, boundsStage, adjustedSpeed, maxVelFor, starvationFactor, eatFirstFood,
    stepKeep, d0, cA1, cA2, hFat, hChild, P0, rHalf, List.filter_cons, List.filter_nil,
    decide_eq_true_eq, hypot_of_nonneg, hypot_of_nonpos, abs_of_nonneg, abs_of_nonpos,
    WORLD_WIDTH, WORLD_HEIGHT, cos_rHalf_angle, sin_rHalf_angle, List.insert,
    nearestAgentFrom, nearestFoodFrom]

lemma stepA_cA2 (o : List Agent) :
    stepAgent P0 [cA1, hFat, cA2] 1 2 [] ⟨[], [10], o, 1, 101, 14, [(1, 10)], [(10, true)], 0, 0⟩
      cA2 rHalf 0 =
    ⟨[], [10], o ++ [cA2out], 1, 101, 17, [(1, 10), (2, 10)], [(10, true)], 0, 0⟩ := by
  norm_num [stepAgent, stepCore, steer, steerCarn, wanderStage, moveStage, velStage,
    boundsStage, adjustedSpeed, maxVelFor, starvationFactor, findPrey, stepKeep, d0,
    cA1, cA2, hFat, cA2out, P0, rHalf, List.filter_cons, List.filter_nil,
    decide_eq_true_eq, hypot_of_nonneg, hypot_of_nonpos, abs_of_nonneg, abs_of_nonpos,
    WORLD_WIDTH, WORLD_HEIGHT, cos_rHalf_angle, sin_rHalf_angle, List.insert,
    nearestAgentFrom]

lemma updateState_wC1 : updateState wC1 P0 rHalf 0 =
    ⟨[], [10], [cA1out, hChild, cA2out], 1, 101, 17, [(1, 10), (2, 10)], [(10, true)],
      0, 0⟩ := by
  have hinit : initTickState wC1 P0 rHalf 0 = ⟨[], [], [], 0, 100, 1, [], [], 0, 0⟩ := by
    norm_num [initTickState, foodAfterSpawn, kAfterSpawn, countKind, scarcityBoost,
      wC1, P0, rHalf, cA1, cA2, hFat, List.filter_cons, List.filter_nil, decide_eq_true_eq]
  have hH : countKind AgentType.herbivore [cA1, hFat, cA2] = 1 := by
    norm_num [countKind, cA1, cA2, hFat, List.filter_cons, List.filter_nil, decide_eq_true_eq]
  have hC : countKind AgentType.carnivore [cA1, hFat, cA2] = 2 := by
    norm_num [countKind, cA1, cA2, hFat, List.filter_cons, List.filter_nil, decide_eq_true_eq]
  simp only [updateState, show wC1.agents = [cA1, hFat, cA2] from rfl, hinit, hH, hC,
    List.foldl_cons, List.foldl_nil, stepA_cA1, stepA_hFat, stepA_cA2,
    List.nil_append, List.cons_append]

/-! wC2 evaluation -/

lemma stepA2a_1 (o : List Agent) :
    stepAgent P0 [cA1, hPrey] 1 1 [] ⟨[], [], o, 0, 100, 1, [], [], 0, 0⟩ cA1 rHalf 0 =
    ⟨[], [0], o ++ [cA1preyOut], 0, 100, 3, [(1, 0)], [], 0, 0⟩ := by
  norm_num [stepAgent, stepCore, steer, steerCarn, wanderStage, moveStage, velStage,
    boundsStage, adjustedSpeed, maxVelFor, starvationFactor, findPrey, stepKeep, d0,
    cA1, hPrey, cA1preyOut, P0, rHalf, List.filter_cons, List.filter_nil,
    decide_eq_true_eq, hypot_of_nonneg, hypot_of_nonpos, abs_of_nonneg, abs_of_nonpos,
    WORLD_WIDTH, WORLD_HEIGHT, cos_rHalf_angle, sin_rHalf_angle, List.insert,
    nearestAgentFrom]

lemma stepA2a_2 (o : List Agent) :
    stepAgent P0 [cA1, hPrey] 1 1 [] ⟨[], [0], o, 0, 100, 3, [(1, 0)], [], 0, 0⟩ hPrey rHalf 0 =
    ⟨[], [0], o, 0, 100, 5, [(1, 0)], [], 0, 0⟩ := by
  norm_num [stepAgent, stepCore, steer, steerHerb, wanderStage, moveStage, velStage,
    boundsStage, adjustedSpeed, maxVelFor, starvationFactor, eatFirstFood, stepKeep, d0,
    cA1, hPrey, P0, rHalf, List.filter_cons, List.filter_nil,
    decide_eq_true_eq, hypot_of_nonneg, hypot_of_nonpos, abs_of_nonneg, abs_of_nonpos,
    WORLD_WIDTH, WORLD_HEIGHT, cos_rHalf_angle, sin_rHalf_angle, List.insert,
    nearestAgentFrom]

lemma updateState_wC2a : updateState wC2a P0 rHalf 0 =
    ⟨[], [0], [cA1preyOut], 0, 100, 5, [(1, 0)], [], 0, 0⟩ := by
  have hinit : initTickState wC2a P0 rHalf 0 = ⟨[], [], [], 0, 100, 1, [], [], 0, 0⟩ := by
    norm_num [initTickState, foodAfterSpawn, kAfterSpawn, countKind, scarcityBoost,
      wC2a, P0, rHalf, cA1, hPrey, List.filter_cons, List.filter_nil, decide_eq_true_eq]
  have hH : countKind AgentType.herbivore [cA1, hPrey] = 1 := by
    norm_num [countKind, cA1, hPrey, List.filter_cons, List.filter_nil, decide_eq_true_eq]
  have hC : countKind AgentType.carnivore [cA1, hPrey] = 1 := by
    norm_num [countKind, cA1, hPrey, List.filter_cons, List.filter_nil, decide_eq_true_eq]
  simp only [updateState, show wC2a.agents = [cA1, hPrey] from rfl, hinit, hH, hC,
    List.foldl_cons, List.foldl_nil, stepA2a_1, stepA2a_2, List.nil_append,
    List.cons_append]

lemma stepA2b_1 (o : List Agent) :
    stepAgent P0 [hPrey, cA1] 1 1 [] ⟨[], [], o, 0, 100, 1, [], [], 0, 0⟩ hPrey rHalf 0 =
    ⟨[], [], o ++ [hPreyOut], 0, 100, 3, [], [], 0, 0⟩ := by
  norm_num [stepAgent, stepCore, steer, steerHerb, wanderStage, moveStage, velStage,
    boundsStage, adjustedSpeed, maxVelFor, starvationFactor, eatFirstFood, stepKeep, d0,
    cA1, hPrey, hPreyOut, P0, rHalf, List.filter_cons, List.filter_nil,
    decide_eq_true_eq, hypot_of_nonneg, hypot_of_nonpos, abs_of_nonneg, abs_of_nonpos,
    WORLD_WIDTH, WORLD_HEIGHT, cos_rHalf_angle, sin_rHalf_angle, List.insert,
    nearestAgentFrom]

lemma stepA2b_2 (o : List Agent) :
    stepAgent P0 [hPrey, cA1] 1 1 [] ⟨[], [], o, 0, 100, 3, [], [], 0, 0⟩ cA1 rHalf 0 =
    ⟨[], [0], o ++ [cA1preyOut], 0, 100, 5, [(1, 0)], [], 0, 0⟩ := by
  norm_num [stepAgent, stepCore, steer, steerCarn, wanderStage, moveStage, velStage,
    boundsStage, adjustedSpeed, maxVelFor, starvationFactor, findPrey, stepKeep, d0,
    cA1, hPrey, cA1preyOut, P0, rHalf, List.filter_cons, List.filter_nil,
    decide_eq_true_eq, hypot_of_nonneg, hypot_of_nonpos, abs_of_nonneg, abs_of_nonpos,
    WORLD_WIDTH, WORLD_HEIGHT, cos_rHalf_angle, sin_rHalf_angle, List.insert,
    nearestAgentFrom]

lemma updateState_wC2b : updateState wC2b P0 rHalf 0 =
    ⟨[], [0], [hPreyOut, cA1preyOut], 0, 100, 5, [(1, 0)], [], 0, 0⟩ := by
  have hinit : initTickState wC2b P0 rHalf 0 = ⟨[], [], [], 0, 100, 1, [], [], 0, 0⟩ := by
    norm_num [initTickState, foodAfterSpawn, kAfterSpawn, countKind, scarcityBoost,
      wC2b, P0, rHalf, cA1, hPrey, List.filter_cons, List.filter_nil, decide_eq_true_eq]
  have hH : countKind AgentType.herbivore [hPrey, cA1] = 1 := by
    norm_num [countKind, cA1, hPrey, List.filter_cons, List.filter_nil, decide_eq_true_eq]
  have hC : countKind AgentType.carnivore [hPrey, cA1] = 1 := by
    norm_num [countKind, cA1, hPrey, List.filter_cons, List.filter_nil, decide_eq_true_eq]
  simp only [updateState, show wC2b.agents = [hPrey, cA1] from rfl, hinit, hH, hC,
    List.foldl_cons, List.foldl_nil, stepA2b_1, stepA2b_2, List.nil_append,
    List.cons_append]

/-! wC3 evaluation -/

lemma stepA3_1 (o : List Agent) :
    stepAgent P3 [rCarn1, rCarn2] 0 2 [] ⟨[], [], o, 0, 100, 1, [], [], 0, 0⟩ rCarn1 rHalf 0 =
    ⟨[], [], o ++ [cChild1, rCarn1out], 0, 101, 13, [], [(0, false)], 0, 0⟩ := by
  norm_num [stepAgent, stepCore, steer, steerCarn, carnChild, wanderStage, moveStage,
    velStage, boundsStage, adjustedSpeed, maxVelFor, starvationFactor, findPrey, stepKeep,
    d0, rCarn1, rCarn2, cChild1, rCarn1out, P3, rHalf, List.filter_cons, List.filter_nil,
    decide_eq_true_eq, hypot_of_nonneg, hypot_of_nonpos, abs_of_nonneg, abs_of_nonpos,
    WORLD_WIDTH, WORLD_HEIGHT, cos_rHalf_angle, sin_rHalf_angle, List.insert,
    nearestAgentFrom]

lemma stepA3_2 (o : List Agent) :
    stepAgent P3 [rCarn1, rCarn2] 0 2 []
      ⟨[], [], o, 0, 101, 13, [], [(0, false)], 0, 0⟩ rCarn2 rHalf 0 =
    ⟨[], [], o ++ [cChild2, rCarn2out], 0, 102, 25, [], [(0, false), (1, false)], 0, 0⟩ := by
  norm_num [stepAgent, stepCore, steer, steerCarn, carnChild, wanderStage, moveStage,
    velStage, boundsStage, adjustedSpeed, maxVelFor, starvationFactor, findPrey, stepKeep,
    d0, rCarn1, rCarn2, cChild2, rCarn2out, P3, rHalf, List.filter_cons, List.filter_nil,
    decide_eq_true_eq, hypot_of_nonneg, hypot_of_nonpos, abs_of_nonneg, abs_of_nonpos,
    WORLD_WIDTH, WORLD_HEIGHT, cos_rHalf_angle, sin_rHalf_angle, List.insert,
    nearestAgentFrom]

lemma updateState_wC3 : updateState wC3 P3 rHalf 0 =
    ⟨[], [], [cChild1, rCarn1out, cChild2, rCarn2out], 0, 102, 25, [],
      [(0, false), (1, false)], 0, 0⟩ := by
  have hinit : initTickState wC3 P3 rHalf 0 = ⟨[], [], [], 0, 100, 1, [], [], 0, 0⟩ := by
    norm_num [initTickState, foodAfterSpawn, kAfterSpawn, countKind, scarcityBoost,
      wC3, P3, rHalf, rCarn1, rCarn2, List.filter_cons, List.filter_nil, decide_eq_true_eq]
  have hH : countKind AgentType.herbivore [rCarn1, rCarn2] = 0 := by
    norm_num [countKind, rCarn1, rCarn2, List.filter_cons, List.filter_nil, decide_eq_true_eq]
  have hC : countKind AgentType.carnivore [rCarn1, rCarn2] = 2 := by
    norm_num [countKind, rCarn1, rCarn2, List.filter_cons, List.filter_nil, decide_eq_true_eq]
  simp only [updateState, show wC3.agents = [rCarn1, rCarn2] from rfl, hinit, hH, hC,
    List.foldl_cons, List.foldl_nil, stepA3_1, stepA3_2, List.nil_append,
    List.cons_append]

/-! wC5 evaluation, real and snapshot -/

lemma stepA5_1 (o : List Agent) :
    stepAgent P0 [hEater, hWatcher] 2 0 [f5] ⟨[f5], [], o, 0, 100, 1, [], [], 0, 0⟩
      hEater rHalf 0 =
    ⟨[], [], o ++ [hEaterOut], 0, 100, 3, [], [], 1, 0⟩ := by
  norm_num [stepAgent, stepCore, steer, steerHerb, nearestFoodDist, wanderStage, moveStage,
    velStage, boundsStage, adjustedSpeed, maxVelFor, starvationFactor, eatFirstFood,
    stepKeep, d0, hEater, hWatcher, f5, hEaterOut, P0, rHalf, List.filter_cons,
    List.filter_nil, decide_eq_true_eq, hypot_of_nonneg, hypot_of_nonpos, abs_of_nonneg,
    abs_of_nonpos, WORLD_WIDTH, WORLD_HEIGHT, cos_rHalf_angle, sin_rHalf_angle,
    List.insert, nearestAgentFrom, nearestFoodFrom]

lemma stepA5_2 (o : List Agent) :
    stepAgent P0 [hEater, hWatcher] 2 0 [] ⟨[], [], o, 0, 100, 3, [], [], 1, 0⟩
      hWatcher rHalf 0 =
    ⟨[], [], o ++ [hWatcherOut], 0, 100, 6, [], [], 1, 0⟩ := by
  norm_num [stepAgent, stepCore, steer, steerHerb, nearestFoodDist, wanderStage, moveStage,
    velStage, boundsStage, adjustedSpeed, maxVelFor, starvationFactor, eatFirstFood,
    stepKeep, d0, hEater, hWatcher, hWatcherOut, P0, rHalf, List.filter_cons,
    List.filter_nil, decide_eq_true_eq, hypot_of_nonneg, hypot_of_nonpos, abs_of_nonneg,
    abs_of_nonpos, WORLD_WIDTH, WORLD_HEIGHT, cos_rHalf_angle, sin_rHalf_angle,
    List.insert, nearestAgentFrom, nearestFoodFrom]

lemma updateState_wC5 : updateState wC5 P0 rHalf 0 =
    ⟨[], [], [hEaterOut, hWatcherOut], 0, 100, 6, [], [], 1, 0⟩ := by
  have hinit : initTickState wC5 P0 rHalf 0 = ⟨[f5], [], [], 0, 100, 1, [], [], 0, 0⟩ := by
    norm_num [initTickState, foodAfterSpawn, kAfterSpawn, countKind, scarcityBoost,
      wC5, P0, rHalf, hEater, hWatcher, List.filter_cons, List.filter_nil,
      decide_eq_true_eq]
  have hH : countKind AgentType.herbivore [hEater, hWatcher] = 2 := by
    norm_num [countKind, hEater, hWatcher, List.filter_cons, List.filter_nil,
      decide_eq_true_eq]
  have hC : countKind AgentType.carnivore [hEater, hWatcher] = 0 := by
    norm_num [countKind, hEater, hWatcher, List.filter_cons, List.filter_nil,
      decide_eq_true_eq]
  simp only [updateState, show wC5.agents = [hEater, hWatcher] from rfl, hinit, hH, hC,
    List.foldl_cons, List.foldl_nil, stepA5_1, stepA5_2, List.nil_append,
    List.cons_append]

lemma stepA5s_2 (o : List Agent) :
    stepAgent P0 [hEater, hWatcher] 2 0 [f5] ⟨[], [], o, 0, 100, 3, [], [], 1, 0⟩
      hWatcher rHalf 0 =
    ⟨[], [], o ++ [hWatcherSnapOut], 0, 100, 5, [], [], 1, 0⟩ := by
  norm_num [stepAgent, stepCore, steer, steerHerb, nearestFoodDist, wanderStage, moveStage,
    velStage, boundsStage, adjustedSpeed, maxVelFor, starvationFactor, eatFirstFood,
    stepKeep, d0, hEater, hWatcher, f5, hWatcherSnapOut, P0, rHalf, List.filter_cons,
    List.filter_nil, decide_eq_true_eq, hypot_of_nonneg, hypot_of_nonpos, abs_of_nonneg,
    abs_of_nonpos, WORLD_WIDTH, WORLD_HEIGHT, cos_rHalf_angle, sin_rHalf_angle,
    List.insert, nearestAgentFrom, nearestFoodFrom]

lemma foodAfterSpawn_wC5 : foodAfterSpawn wC5 P0 rHalf 0 = [f5] := by
  norm_num [foodAfterSpawn, countKind, scarcityBoost, wC5, P0, rHalf, hEater, hWatcher,
    List.filter_cons, List.filter_nil, decide_eq_true_eq]

lemma updateStateSnap_wC5 : updateStateSnap wC5 P0 rHalf 0 =
    ⟨[], [], [hEaterOut, hWatcherSnapOut], 0, 100, 5, [], [], 1, 0⟩ := by
  have hinit : initTickState wC5 P0 rHalf 0 = ⟨[f5], [], [], 0, 100, 1, [], [], 0, 0⟩ := by
    norm_num [initTickState, foodAfterSpawn, kAfterSpawn, countKind, scarcityBoost,
      wC5, P0, rHalf, hEater, hWatcher, List.filter_cons, List.filter_nil,
      decide_eq_true_eq]
  have hH : countKind AgentType.herbivore [hEater, hWatcher] = 2 := by
    norm_num [countKind, hEater, hWatcher, List.filter_cons, List.filter_nil,
      decide_eq_true_eq]
  have hC : countKind AgentType.carnivore [hEater, hWatcher] = 0 := by
    norm_num [countKind, hEater, hWatcher, List.filter_cons, List.filter_nil,
      decide_eq_true_eq]
  simp only [updateStateSnap, show wC5.agents = [hEater, hWatcher] from rfl, hinit, hH, hC,
    foodAfterSpawn_wC5, List.foldl_cons, List.foldl_nil, stepA5_1, stepA5s_2,
    List.nil_append, List.cons_append]

/-! wC6 evaluation with the 0.3 oracle -/

lemma lt_hypot_iff {c : ℝ} (hc : 0 ≤ c) (u v : ℝ) :
    c < hypot u v ↔ c ^ 2 < u ^ 2 + v ^ 2 := by
  rw [hypot, Real.lt_sqrt hc]

lemma stepA6 (o : List Agent) :
    stepAgent P0 [edgeHerb] 1 0 [] ⟨[], [], o, 0, 100, 1, [], [], 0, 0⟩ edgeHerb r03 0 =
    ⟨[], [], o ++ [hChild6, edgeHerbOut], 1, 101, 10, [], [(0, false)], 0, 0⟩ := by
  norm_num [stepAgent, stepCore, steer, steerHerb, herbChild, nearestFoodDist, wanderStage,
    moveStage, velStage, boundsStage, adjustedSpeed, maxVelFor, starvationFactor,
    eatFirstFood, stepKeep, d0, edgeHerb, hChild6, edgeHerbOut, P0, r03, List.filter_cons,
    List.filter_nil, decide_eq_true_eq, hypot_lt_iff, lt_hypot_iff, abs_of_nonneg,
    abs_of_nonpos, WORLD_WIDTH, WORLD_HEIGHT, List.insert, nearestAgentFrom,
    nearestFoodFrom]

lemma updateState_wC6 : updateState wC6 P0 r03 0 =
    ⟨[], [], [hChild6, edgeHerbOut], 1, 101, 10, [], [(0, false)], 0, 0⟩ := by
  have hinit : initTickState wC6 P0 r03 0 = ⟨[], [], [], 0, 100, 1, [], [], 0, 0⟩ := by
    norm_num [initTickState, foodAfterSpawn, kAfterSpawn, countKind, scarcityBoost,
      wC6, P0, r03, edgeHerb, List.filter_cons, List.filter_nil, decide_eq_true_eq]
  have hH : countKind AgentType.herbivore [edgeHerb] = 1 := by
    norm_num [countKind, edgeHerb, List.filter_cons, List.filter_nil, decide_eq_true_eq]
  have hC : countKind AgentType.carnivore [edgeHerb] = 0 := by
    norm_num [countKind, edgeHerb, List.filter_cons, List.filter_nil, decide_eq_true_eq]
  simp only [updateState, show wC6.agents = [edgeHerb] from rfl, hinit, hH, hC,
    List.foldl_cons, List.foldl_nil, stepA6, List.nil_append, List.cons_append]

/-! Structural facts about the per-agent step. -/

lemma maxVelFor_ge (t : AgentType) : (2.5 : ℝ) ≤ maxVelFor t := by
  unfold maxVelFor; split_ifs <;> norm_num

lemma maxVelFor_pos (t : AgentType) : (0 : ℝ) < maxVelFor t :=
  lt_of_lt_of_le (by norm_num) (maxVelFor_ge t)

section StepFacts

variable (P : Params) (start : List Agent) (cH cC : ℕ) (pf : List Food)
  (st : TickState) (a : Agent) (r : ℕ → ℝ) (now : ℝ)

lemma stepAgent_out :
    (stepAgent P start cH cC pf st a r now).out =
      st.out ++ (stepCore P start cH cC pf st a r now).child.toList ++
        (if stepKeep (stepCore P start cH cC pf st a r now).eaten a
            (stepCore P start cH cC pf st a r now).cand
          then [(stepCore P start cH cC pf st a r now).cand] else []) := rfl

lemma stepAgent_eaten :
    (stepAgent P start cH cC pf st a r now).eaten =
      (stepCore P start cH cC pf st a r now).eaten := rfl

lemma stepAgent_food :
    (stepAgent P start cH cC pf st a r now).food =
      (stepCore P start cH cC pf st a r now).food := rfl

lemma stepCore_cand_type :
    (stepCore P start cH cC pf st a r now).cand.type = a.type := rfl

lemma stepCore_cand_id :
    (stepCore P start cH cC pf st a r now).cand.id = a.id := rfl

lemma stepCore_cand_age :
    (stepCore P start cH cC pf st a r now).cand.age = a.age + 0.05 := rfl

lemma stepCore_cand_size_mem :
    3 ≤ (stepCore P start cH cC pf st a r now).cand.size ∧
      (stepCore P start cH cC pf st a r now).cand.size ≤ 10 := by
  refine ⟨le_max_left _ _, max_le (by norm_num) (min_le_left _ _)⟩

end StepFacts

/-! Boundary stage facts -/

lemma abs_nudge₁ (d : ℝ) : abs (abs d + 0.2) = abs d + 0.2 :=
  abs_of_nonneg (by positivity)

lemma abs_nudge₂ (d : ℝ) : abs (-(abs d) - 0.2) = abs d + 0.2 := by
  rw [show -(abs d) - 0.2 = -(abs d + 0.2) by ring, abs_neg]
  exact abs_of_nonneg (by positivity)

lemma boundsStage_mem (x y dx dy : ℝ) :
    1 ≤ (boundsStage x y dx dy).1 ∧ (boundsStage x y dx dy).1 ≤ WORLD_WIDTH - 1 ∧
      1 ≤ (boundsStage x y dx dy).2.1 ∧ (boundsStage x y dx dy).2.1 ≤ WORLD_HEIGHT - 1 := by
  unfold boundsStage WORLD_WIDTH WORLD_HEIGHT
  split_ifs <;> refine ⟨?_, ?_, ?_, ?_⟩ <;> linarith

lemma boundsStage_vel (x y dx dy : ℝ) :
    |(boundsStage x y dx dy).2.2.1| ≤ |dx| + 0.2 ∧
      |(boundsStage x y dx dy).2.2.2| ≤ |dy| + 0.2 := by
  unfold boundsStage
  split_ifs <;> constructor <;>
    simp only [abs_neg, abs_nudge₁, abs_nudge₂, le_refl] <;>
    linarith [abs_nonneg dx, abs_nonneg dy]

/-! Velocity stage bound -/

lemma add_kick_sq_le (a b c θ : ℝ) (hc : 0 ≤ c) :
    (a + Real.cos θ * c) ^ 2 + (b + Real.sin θ * c) ^ 2 ≤ (hypot a b + c) ^ 2 := by
  have hcs : Real.cos θ ^ 2 + Real.sin θ ^ 2 = 1 := Real.cos_sq_add_sin_sq θ
  have hh := sq_hypot a b
  have hhn := hypot_nonneg a b
  have cauchy : a * Real.cos θ + b * Real.sin θ ≤ hypot a b := by
    nlinarith [sq_nonneg (a * Real.sin θ - b * Real.cos θ),
      sq_nonneg (a * Real.cos θ + b * Real.sin θ - hypot a b),
      sq_nonneg (a * Real.cos θ + b * Real.sin θ + hypot a b)]
  have hc2 : (Real.cos θ * c) ^ 2 + (Real.sin θ * c) ^ 2 = c ^ 2 := by
    rw [mul_pow, mul_pow, ← add_mul, hcs, one_mul]
  nlinarith [mul_le_mul_of_nonneg_left cauchy hc, hc2, hh, hhn, hc]

lemma velStage_sq_le (t : AgentType) (dx dy stuck : ℝ) (k : ℕ) (r : ℕ → ℝ)
    (h : stuck ≤ 60) :
    (velStage t dx dy stuck k r).1 ^ 2 + (velStage t dx dy stuck k r).2.1 ^ 2 ≤
      maxVelFor t ^ 2 := by
  have hM := maxVelFor_ge t
  have hh := sq_hypot dx dy
  have hhn := hypot_nonneg dx dy
  simp only [velStage]
  by_cases h1 : hypot dx dy > maxVelFor t
  · have h2 : ¬ (hypot dx dy < 0.08) := by linarith
    have h3 : ¬ (hypot dx dy < 0.12) := by linarith
    have hns : hypot dx dy ≠ 0 := by intro h0; rw [h0] at h1; linarith
    simp only [if_pos h1, if_neg h2, if_neg h3]
    have key : (dx / hypot dx dy * maxVelFor t) ^ 2 + (dy / hypot dx dy * maxVelFor t) ^ 2 =
        (dx ^ 2 + dy ^ 2) / hypot dx dy ^ 2 * maxVelFor t ^ 2 := by ring
    by_cases h4 : stuck > 0
    · have h5 : ¬ (stuck - 1 > 60) := by linarith
      simp only [if_pos h4, if_neg h5]
      rw [key, ← hh, div_self (pow_ne_zero 2 hns), one_mul]
    · have h5 : ¬ (stuck > 60) := by linarith
      simp only [if_neg h4, if_neg h5]
      rw [key, ← hh, div_self (pow_ne_zero 2 hns), one_mul]
  · simp only [if_neg h1]
    have hsM : hypot dx dy ≤ maxVelFor t := not_lt.mp h1
    by_cases h2 : hypot dx dy < 0.08
    · have h3 : hypot dx dy < 0.12 := by linarith
      simp only [if_pos h2, if_pos h3]
      have hk := add_kick_sq_le dx dy 0.35 (r k * Real.pi * 2) (by norm_num)
      by_cases h5 : stuck + 1 > 60
      · simp only [if_pos h5]
        have hi := add_kick_sq_le (dx + Real.cos (r k * Real.pi * 2) * 0.35)
          (dy + Real.sin (r k * Real.pi * 2) * 0.35) 1.0 (r (k + 1) * Real.pi * 2)
          (by norm_num)
        have hkb : hypot (dx + Real.cos (r k * Real.pi * 2) * 0.35)
            (dy + Real.sin (r k * Real.pi * 2) * 0.35) ≤ hypot dx dy + 0.35 :=
          hypot_le_of_sq (by linarith) hk
        nlinarith [hypot_nonneg (dx + Real.cos (r k * Real.pi * 2) * 0.35)
          (dy + Real.sin (r k * Real.pi * 2) * 0.35)]
      · simp only [if_neg h5]
        nlinarith
    · simp only [if_neg h2]
      by_cases h3 : hypot dx dy < 0.12
      · simp only [if_pos h3]
        by_cases h5 : stuck + 1 > 60
        · simp only [if_pos h5]
          have hi := add_kick_sq_le dx dy 1.0 (r k * Real.pi * 2) (by norm_num)
          nlinarith
        · simp only [if_neg h5]
          nlinarith
      · simp only [if_neg h3]
        by_cases h4 : stuck > 0
        · have h5 : ¬ (stuck - 1 > 60) := by linarith
          simp only [if_pos h4, if_neg h5]
          nlinarith
        · have h5 : ¬ (stuck > 60) := by linarith
          simp only [if_neg h4, if_neg h5]
          nlinarith

/-! Facts about the candidate and child produced by one step. -/

section StepFacts2

variable (P : Params) (start : List Agent) (cH cC : ℕ) (pf : List Food)
  (st : TickState) (a : Agent) (r : ℕ → ℝ) (now : ℝ)

lemma stepCore_cand_pos :
    1 ≤ (stepCore P start cH cC pf st a r now).cand.x ∧
      (stepCore P start cH cC pf st a r now).cand.x ≤ WORLD_WIDTH - 1 ∧
      1 ≤ (stepCore P start cH cC pf st a r now).cand.y ∧
      (stepCore P start cH cC pf st a r now).cand.y ≤ WORLD_HEIGHT - 1 := by
  simp only [stepCore]
  exact boundsStage_mem _ _ _ _

lemma stepCore_cand_vel (hstuck : a.stuckTicks ≤ 60) :
    hypot (stepCore P start cH cC pf st a r now).cand.dx
      (stepCore P start cH cC pf st a r now).cand.dy ≤ maxVelFor a.type + 0.3 := by
  simp only [stepCore]
  set w := wanderStage a.type
    (steer start pf st.food a a.x a.y a.dx a.dy a.energy st.k r now).pursuing
    (steer start pf st.food a a.x a.y a.dx a.dy a.energy st.k r now).dx
    (steer start pf st.food a a.x a.y a.dx a.dy a.energy st.k r now).dy
    (steer start pf st.food a a.x a.y a.dx a.dy a.energy st.k r now).k r with hw
  set m := moveStage P a.type a.speed a.x a.y w.1 w.2.1 with hm
  set v := velStage a.type m.2.2.1 m.2.2.2 a.stuckTicks w.2.2 r with hv
  have hvb := velStage_sq_le a.type m.2.2.1 m.2.2.2 a.stuckTicks w.2.2 r hstuck
  rw [← hv] at hvb
  have hbb := boundsStage_vel m.1 m.2.1 v.1 v.2.1
  have hM := maxVelFor_ge a.type
  apply hypot_le_of_sq (by linarith)
  have h1 : (boundsStage m.1 m.2.1 v.1 v.2.1).2.2.1 ^ 2 ≤ (|v.1| + 0.2) ^ 2 := by
    rw [← sq_abs]
    exact pow_le_pow_left₀ (abs_nonneg _) hbb.1 2
  have h2 : (boundsStage m.1 m.2.1 v.1 v.2.1).2.2.2 ^ 2 ≤ (|v.2.1| + 0.2) ^ 2 := by
    rw [← sq_abs]
    exact pow_le_pow_left₀ (abs_nonneg _) hbb.2 2
  have ha1 : |v.1| ^ 2 = v.1 ^ 2 := sq_abs _
  have ha2 : |v.2.1| ^ 2 = v.2.1 ^ 2 := sq_abs _
  have hS0 : 0 ≤ |v.1| + |v.2.1| := by positivity
  have h15 : (0 : ℝ) ≤ 1.5 * maxVelFor a.type := by linarith
  have hABsq : (|v.1| + |v.2.1|) ^ 2 ≤ 2.25 * maxVelFor a.type ^ 2 := by
    nlinarith [sq_nonneg (|v.1| - |v.2.1|), hvb, ha1, ha2, hM]
  have hAB : |v.1| + |v.2.1| ≤ 1.5 * maxVelFor a.type := by
    calc |v.1| + |v.2.1| = Real.sqrt ((|v.1| + |v.2.1|) ^ 2) := (Real.sqrt_sq hS0).symm
      _ ≤ Real.sqrt (2.25 * maxVelFor a.type ^ 2) := Real.sqrt_le_sqrt hABsq
      _ = 1.5 * maxVelFor a.type := by
          rw [show (2.25 : ℝ) * maxVelFor a.type ^ 2 = (1.5 * maxVelFor a.type) ^ 2 by ring,
            Real.sqrt_sq h15]
  nlinarith [h1, h2, hAB, hvb, ha1, ha2, hM, abs_nonneg v.1, abs_nonneg v.2.1]

end StepFacts2

section StepFacts3

variable (P : Params) (start : List Agent) (cH cC : ℕ) (pf : List Food)
  (st : TickState) (a : Agent) (r : ℕ → ℝ) (now : ℝ)

lemma stepCore_child_spec (c : Agent)
    (hc : (stepCore P start cH cC pf st a r now).child = some c) :
    c.type = a.type ∧ c.age = 0 ∧ c.size = 5 ∧ (c.energy = 35 ∨ c.energy = 70) ∧
      ∃ j1 j2 j3 j4,
        c.x = (stepCore P start cH cC pf st a r now).cand.x + (r j1 - 0.5) * 10 ∧
        c.y = (stepCore P start cH cC pf st a r now).cand.y + (r j2 - 0.5) * 10 ∧
        c.dx = (stepCore P start cH cC pf st a r now).cand.dx + (r j3 - 0.5) * 0.5 ∧
        c.dy = (stepCore P start cH cC pf st a r now).cand.dy + (r j4 - 0.5) * 0.5 := by
  simp only [stepCore] at hc ⊢
  cases ht : a.type <;> simp only [ht] at hc ⊢
  case carnivore =>
    split at hc
    · simp only [Option.some.injEq] at hc
      subst hc
      exact ⟨rfl, rfl, rfl, Or.inr rfl, _, _, _, _, rfl, rfl, rfl, rfl⟩
    · simp at hc
  case herbivore =>
    split at hc
    · simp only [Option.some.injEq] at hc
      subst hc
      exact ⟨rfl, rfl, rfl, Or.inl rfl, _, _, _, _, rfl, rfl, rfl, rfl⟩
    · simp at hc
  case neutral => simp at hc

lemma stepCore_eaten_mono (n : ℕ) (hn : n ∈ st.eaten) :
    n ∈ (stepCore P start cH cC pf st a r now).eaten := by
  simp only [stepCore]
  cases ht : a.type <;> simp only [ht]
  case carnivore =>
    split
    · exact List.mem_insert_iff.mpr (Or.inr hn)
    · exact hn
  case herbivore =>
    split <;> exact hn
  case neutral => exact hn

lemma stepCore_eaten_sub (n : ℕ)
    (hn : n ∈ (stepCore P start cH cC pf st a r now).eaten) :
    n ∈ st.eaten ∨ a.type = AgentType.carnivore := by
  simp only [stepCore] at hn
  cases ht : a.type <;> simp only [ht] at hn
  case carnivore => exact Or.inr rfl
  case herbivore =>
    left
    split at hn <;> exact hn
  case neutral => exact Or.inl hn

end StepFacts3

/-! Counting helpers. -/

lemma countKind_append (t : AgentType) (l1 l2 : List Agent) :
    countKind t (l1 ++ l2) = countKind t l1 + countKind t l2 := by
  simp [countKind, List.filter_append]

lemma countKind_singleton (t : AgentType) (x : Agent) :
    countKind t [x] = if x.type = t then 1 else 0 := by
  by_cases h : x.type = t <;> simp [countKind, List.filter_cons, h]

lemma countKind_nil (t : AgentType) : countKind t [] = 0 := rfl

/-! Food-accounting helpers. -/

lemma eatFirstFood_length (x y : ℝ) :
    ∀ (l l' : List Food), eatFirstFood x y l = some l' → l'.length + 1 = l.length := by
  intro l
  induction l with
  | nil => intro l' h; simp [eatFirstFood] at h
  | cons f rest ih =>
      intro l' h
      simp only [eatFirstFood] at h
      split at h
      · simp only [Option.some.injEq] at h
        subst h
        simp
      · cases he : eatFirstFood x y rest with
        | none => rw [he] at h; simp at h
        | some m =>
            rw [he] at h
            simp only [Option.map_some', Option.some.injEq] at h
            subst h
            have := ih m he
            simp only [List.length_cons]
            omega

section StepFacts4

variable (P : Params) (start : List Agent) (cH cC : ℕ) (pf : List Food)
  (st : TickState) (a : Agent) (r : ℕ → ℝ) (now : ℝ)

lemma stepCore_food_len :
    (stepCore P start cH cC pf st a r now).food.length +
        (stepCore P start cH cC pf st a r now).foodEaten + st.foodSeeded =
      st.food.length + st.foodEaten +
        (stepCore P start cH cC pf st a r now).foodSeeded := by
  simp only [stepCore, steer]
  cases ht : a.type <;> simp only [ht]
  case herbivore =>
    split
    · rename_i l he
      dsimp only
      have := eatFirstFood_length _ _ _ _ he
      omega
    · dsimp only
      omega
  case carnivore =>
    split <;> dsimp only <;> omega
  case neutral =>
    simp only [steerNeutral]
    split_ifs <;>
      simp only [List.length_append, List.length_cons, List.length_nil] <;> omega

end StepFacts4

section StepFacts5

variable (P : Params) (start : List Agent) (cH cC : ℕ) (pf : List Food)
  (st : TickState) (a : Agent) (r : ℕ → ℝ) (now : ℝ)

lemma stepCore_spawned_mono :
    st.spawnedHerbivores ≤ (stepCore P start cH cC pf st a r now).spawnedHerbivores := by
  simp only [stepCore]
  cases ht : a.type <;> simp only [ht]
  case herbivore => split <;> (try dsimp only) <;> omega
  case carnivore => split <;> (try dsimp only) <;> omega
  case neutral => try dsimp only
                  omega

lemma stepCore_spawned_le (mh : ℕ) (hP : P.maxHerbivores = (mh : ℝ))
    (h : cH + st.spawnedHerbivores ≤ mh) :
    cH + (stepCore P start cH cC pf st a r now).spawnedHerbivores ≤ mh := by
  simp only [stepCore]
  cases ht : a.type <;> simp only [ht]
  case herbivore =>
    split
    · rename_i hcond
      dsimp only
      have h3 := hcond.2.2
      rw [hP] at h3
      have : cH + st.spawnedHerbivores < mh := by exact_mod_cast h3
      omega
    · try dsimp only
      omega
  case carnivore => split <;> (try dsimp only) <;> omega
  case neutral => try dsimp only
                  omega

lemma stepCore_neutral_child (ht : a.type = AgentType.neutral) :
    (stepCore P start cH cC pf st a r now).child = none := by
  simp only [stepCore, ht]

lemma stepCore_child_herb_spawn (c : Agent)
    (hc : (stepCore P start cH cC pf st a r now).child = some c)
    (hherb : c.type = AgentType.herbivore) :
    (stepCore P start cH cC pf st a r now).spawnedHerbivores =
      st.spawnedHerbivores + 1 := by
  simp only [stepCore] at hc ⊢
  cases ht : a.type <;> simp only [ht] at hc ⊢
  case herbivore =>
    split at hc
    · rename_i hcond
      rw [if_pos hcond]
    · simp at hc
  case carnivore =>
    split at hc
    · simp only [Option.some.injEq] at hc
      subst hc
      simp [carnChild] at hherb
    · simp at hc
  case neutral => simp at hc

lemma stepCore_child_carn_cap (c : Agent)
    (hc : (stepCore P start cH cC pf st a r now).child = some c)
    (hcarn : c.type = AgentType.carnivore) :
    (cC : ℝ) < P.maxCarnivores := by
  simp only [stepCore] at hc
  cases ht : a.type <;> simp only [ht] at hc
  case herbivore =>
    split at hc
    · simp only [Option.some.injEq] at hc
      subst hc
      simp [herbChild] at hcarn
    · simp at hc
  case carnivore =>
    split at hc
    · rename_i hcond
      exact hcond.2.2
    · simp at hc
  case neutral => simp at hc

end StepFacts5

section StepFacts6

variable (P : Params) (start : List Agent) (cH cC : ℕ) (pf : List Food)
  (st : TickState) (a : Agent) (r : ℕ → ℝ) (now : ℝ)

lemma countKind_toList_child (t : AgentType)
    (h : ∀ c, (stepCore P start cH cC pf st a r now).child = some c → c.type ≠ t) :
    countKind t (stepCore P start cH cC pf st a r now).child.toList = 0 := by
  cases hc : (stepCore P start cH cC pf st a r now).child with
  | none => rfl
  | some c =>
      simp only [Option.toList_some, countKind_singleton, h c hc, if_false]

lemma countKind_cand_ite (t : AgentType) (q : Prop) [Decidable q] :
    countKind t (if q then [(stepCore P start cH cC pf st a r now).cand] else []) ≤
      if a.type = t then 1 else 0 := by
  by_cases hq : q
  · rw [if_pos hq, countKind_singleton, stepCore_cand_type]
  · rw [if_neg hq, countKind_nil]
    split_ifs <;> omega

lemma stepAgent_out_count_neutral :
    countKind AgentType.neutral (stepAgent P start cH cC pf st a r now).out ≤
      countKind AgentType.neutral st.out +
        (if a.type = AgentType.neutral then 1 else 0) := by
  rw [stepAgent_out, countKind_append, countKind_append]
  have hchild : countKind AgentType.neutral
      (stepCore P start cH cC pf st a r now).child.toList = 0 := by
    apply countKind_toList_child
    intro c hc
    have hs := stepCore_child_spec P start cH cC pf st a r now c hc
    intro hn
    rw [hs.1] at hn
    have := stepCore_neutral_child P start cH cC pf st a r now hn
    rw [this] at hc
    exact absurd hc (by simp)
  have hcand := countKind_cand_ite P start cH cC pf st a r now AgentType.neutral
    (stepKeep (stepCore P start cH cC pf st a r now).eaten a
      (stepCore P start cH cC pf st a r now).cand)
  omega

lemma stepAgent_out_count_carn (hfull : P.maxCarnivores ≤ (cC : ℝ)) :
    countKind AgentType.carnivore (stepAgent P start cH cC pf st a r now).out ≤
      countKind AgentType.carnivore st.out +
        (if a.type = AgentType.carnivore then 1 else 0) := by
  rw [stepAgent_out, countKind_append, countKind_append]
  have hchild : countKind AgentType.carnivore
      (stepCore P start cH cC pf st a r now).child.toList = 0 := by
    apply countKind_toList_child
    intro c hc hcarn
    have := stepCore_child_carn_cap P start cH cC pf st a r now c hc hcarn
    linarith
  have hcand := countKind_cand_ite P start cH cC pf st a r now AgentType.carnivore
    (stepKeep (stepCore P start cH cC pf st a r now).eaten a
      (stepCore P start cH cC pf st a r now).cand)
  omega

lemma stepAgent_out_count_herb :
    countKind AgentType.herbivore (stepAgent P start cH cC pf st a r now).out +
        st.spawnedHerbivores ≤
      countKind AgentType.herbivore st.out +
        (if a.type = AgentType.herbivore then 1 else 0) +
        (stepCore P start cH cC pf st a r now).spawnedHerbivores := by
  rw [stepAgent_out, countKind_append, countKind_append]
  have hcand := countKind_cand_ite P start cH cC pf st a r now AgentType.herbivore
    (stepKeep (stepCore P start cH cC pf st a r now).eaten a
      (stepCore P start cH cC pf st a r now).cand)
  have hmono := stepCore_spawned_mono P start cH cC pf st a r now
  cases hc : (stepCore P start cH cC pf st a r now).child with
  | none =>
      simp only [Option.toList_none, countKind_nil]
      omega
  | some c =>
      by_cases hct : c.type = AgentType.herbivore
      · have hsp := stepCore_child_herb_spawn P start cH cC pf st a r now c hc hct
        simp only [Option.toList_some, countKind_singleton, if_pos hct]
        omega
      · simp only [Option.toList_some, countKind_singleton, if_neg hct]
        omega

end StepFacts6

section FoldFacts

variable (P : Params) (start : List Agent) (cH cC : ℕ) (r : ℕ → ℝ) (now : ℝ)

lemma tickFold_nil (st : TickState) : tickFold P start cH cC r now st [] = st := rfl

lemma tickFold_cons (st : TickState) (a : Agent) (l : List Agent) :
    tickFold P start cH cC r now st (a :: l) =
      tickFold P start cH cC r now (stepAgent P start cH cC st.food st a r now) l := rfl

lemma tickFold_append (st : TickState) (l1 l2 : List Agent) :
    tickFold P start cH cC r now st (l1 ++ l2) =
      tickFold P start cH cC r now (tickFold P start cH cC r now st l1) l2 :=
  List.foldl_append _ _ _ _

lemma updateState_eq_tickFold (w : World) :
    updateState w P r now =
      tickFold P w.agents (countKind AgentType.herbivore w.agents)
        (countKind AgentType.carnivore w.agents) r now (initTickState w P r now)
        w.agents := rfl

lemma tickFold_out_mono (l : List Agent) :
    ∀ (st : TickState) (x : Agent), x ∈ st.out →
      x ∈ (tickFold P start cH cC r now st l).out := by
  induction l with
  | nil => intro st x hx; exact hx
  | cons a l ih =>
      intro st x hx
      rw [tickFold_cons]
      apply ih
      rw [stepAgent_out]
      exact List.mem_append_left _ (List.mem_append_left _ hx)

lemma tickFold_eaten_mono (l : List Agent) :
    ∀ (st : TickState) (n : ℕ), n ∈ st.eaten →
      n ∈ (tickFold P start cH cC r now st l).eaten := by
  induction l with
  | nil => intro st n hn; exact hn
  | cons a l ih =>
      intro st n hn
      rw [tickFold_cons]
      apply ih
      rw [stepAgent_eaten]
      exact stepCore_eaten_mono P start cH cC st.food st a r now n hn

lemma countKind_cons (t : AgentType) (a : Agent) (l : List Agent) :
    countKind t (a :: l) = (if a.type = t then 1 else 0) + countKind t l := by
  by_cases h : a.type = t <;> (simp [countKind, List.filter_cons, h]; try omega)

lemma tickFold_count_neutral (l : List Agent) :
    ∀ st : TickState,
      countKind AgentType.neutral (tickFold P start cH cC r now st l).out ≤
        countKind AgentType.neutral st.out + countKind AgentType.neutral l := by
  induction l with
  | nil => intro st; simp [tickFold_nil, countKind_nil]
  | cons a l ih =>
      intro st
      rw [tickFold_cons, countKind_cons]
      have h1 := ih (stepAgent P start cH cC st.food st a r now)
      have h2 := stepAgent_out_count_neutral P start cH cC st.food st a r now
      omega

lemma tickFold_count_carn (hfull : P.maxCarnivores ≤ (cC : ℝ)) (l : List Agent) :
    ∀ st : TickState,
      countKind AgentType.carnivore (tickFold P start cH cC r now st l).out ≤
        countKind AgentType.carnivore st.out + countKind AgentType.carnivore l := by
  induction l with
  | nil => intro st; simp [tickFold_nil, countKind_nil]
  | cons a l ih =>
      intro st
      rw [tickFold_cons, countKind_cons]
      have h1 := ih (stepAgent P start cH cC st.food st a r now)
      have h2 := stepAgent_out_count_carn P start cH cC st.food st a r now hfull
      omega

lemma tickFold_count_herb (l : List Agent) :
    ∀ st : TickState,
      countKind AgentType.herbivore (tickFold P start cH cC r now st l).out +
          st.spawnedHerbivores ≤
        countKind AgentType.herbivore st.out + countKind AgentType.herbivore l +
          (tickFold P start cH cC r now st l).spawnedHerbivores := by
  induction l with
  | nil => intro st; simp [tickFold_nil, countKind_nil]
  | cons a l ih =>
      intro st
      rw [tickFold_cons, countKind_cons]
      have h1 := ih (stepAgent P start cH cC st.food st a r now)
      have h2 := stepAgent_out_count_herb P start cH cC st.food st a r now
      have h3 : (stepAgent P start cH cC st.food st a r now).spawnedHerbivores =
          (stepCore P start cH cC st.food st a r now).spawnedHerbivores := rfl
      omega

lemma tickFold_spawned_le (mh : ℕ) (hP : P.maxHerbivores = (mh : ℝ)) (l : List Agent) :
    ∀ st : TickState, cH + st.spawnedHerbivores ≤ mh →
      cH + (tickFold P start cH cC r now st l).spawnedHerbivores ≤ mh := by
  induction l with
  | nil => intro st h; exact h
  | cons a l ih =>
      intro st h
      rw [tickFold_cons]
      apply ih
      have h3 : (stepAgent P start cH cC st.food st a r now).spawnedHerbivores =
          (stepCore P start cH cC st.food st a r now).spawnedHerbivores := rfl
      rw [h3]
      exact stepCore_spawned_le P start cH cC st.food st a r now mh hP h

lemma tickFold_food (l : List Agent) :
    ∀ st : TickState,
      (tickFold P start cH cC r now st l).food.length +
          (tickFold P start cH cC r now st l).foodEaten + st.foodSeeded =
        st.food.length + st.foodEaten +
          (tickFold P start cH cC r now st l).foodSeeded := by
  induction l with
  | nil => intro st; rfl
  | cons a l ih =>
      intro st
      rw [tickFold_cons]
      have h1 := ih (stepAgent P start cH cC st.food st a r now)
      have h2 := stepCore_food_len P start cH cC st.food st a r now
      have e1 : (stepAgent P start cH cC st.food st a r now).food =
          (stepCore P start cH cC st.food st a r now).food := rfl
      have e2 : (stepAgent P start cH cC st.food st a r now).foodEaten =
          (stepCore P start cH cC st.food st a r now).foodEaten := rfl
      have e3 : (stepAgent P start cH cC st.food st a r now).foodSeeded =
          (stepCore P start cH cC st.food st a r now).foodSeeded := rfl
      rw [e1, e2, e3] at h1
      omega

end FoldFacts

/-! Triangle-style bounds used for the child velocity. -/

section StepFacts7

variable (P : Params) (start : List Agent) (cH cC : ℕ) (pf : List Food)
  (st : TickState) (a : Agent) (r : ℕ → ℝ) (now : ℝ)

set_option maxHeartbeats 1000000 in
lemma stepCore_child_vel (hr : ∀ i, 0 ≤ r i ∧ r i ≤ 1) (hstuck : a.stuckTicks ≤ 60)
    (c : Agent) (hc : (stepCore P start cH cC pf st a r now).child = some c) :
    hypot c.dx c.dy ≤ maxVelFor a.type + 0.65 := by
  obtain ⟨-, -, -, -, j1, j2, j3, j4, -, -, hdx, hdy⟩ :=
    stepCore_child_spec P start cH cC pf st a r now c hc
  simp only [stepCore] at hdx hdy
  set w := wanderStage a.type
    (steer start pf st.food a a.x a.y a.dx a.dy a.energy st.k r now).pursuing
    (steer start pf st.food a a.x a.y a.dx a.dy a.energy st.k r now).dx
    (steer start pf st.food a a.x a.y a.dx a.dy a.energy st.k r now).dy
    (steer start pf st.food a a.x a.y a.dx a.dy a.energy st.k r now).k r with hw
  set m := moveStage P a.type a.speed a.x a.y w.1 w.2.1 with hm
  set v := velStage a.type m.2.2.1 m.2.2.2 a.stuckTicks w.2.2 r with hv
  have hvb := velStage_sq_le a.type m.2.2.1 m.2.2.2 a.stuckTicks w.2.2 r hstuck
  rw [← hv] at hvb
  have hbb := boundsStage_vel m.1 m.2.1 v.1 v.2.1
  have hM := maxVelFor_ge a.type
  apply hypot_le_of_sq (by linarith)
  have hj3 := hr j3
  have hj4 := hr j4
  have hd1 : |c.dx| ≤ |v.1| + 0.45 := by
    rw [hdx]
    calc |(boundsStage m.1 m.2.1 v.1 v.2.1).2.2.1 + (r j3 - 0.5) * 0.5| ≤
        |(boundsStage m.1 m.2.1 v.1 v.2.1).2.2.1| + |(r j3 - 0.5) * 0.5| := abs_add _ _
      _ ≤ (|v.1| + 0.2) + 0.25 := by
          have : |(r j3 - 0.5) * 0.5| ≤ 0.25 := by
            rw [abs_mul, show |(0.5 : ℝ)| = 0.5 from abs_of_nonneg (by norm_num)]
            have : |r j3 - 0.5| ≤ 0.5 := by
              rw [abs_le]; constructor <;> linarith [hj3.1, hj3.2]
            linarith
          linarith [hbb.1]
      _ = |v.1| + 0.45 := by ring
  have hd2 : |c.dy| ≤ |v.2.1| + 0.45 := by
    rw [hdy]
    calc |(boundsStage m.1 m.2.1 v.1 v.2.1).2.2.2 + (r j4 - 0.5) * 0.5| ≤
        |(boundsStage m.1 m.2.1 v.1 v.2.1).2.2.2| + |(r j4 - 0.5) * 0.5| := abs_add _ _
      _ ≤ (|v.2.1| + 0.2) + 0.25 := by
          have : |(r j4 - 0.5) * 0.5| ≤ 0.25 := by
            rw [abs_mul, show |(0.5 : ℝ)| = 0.5 from abs_of_nonneg (by norm_num)]
            have : |r j4 - 0.5| ≤ 0.5 := by
              rw [abs_le]; constructor <;> linarith [hj4.1, hj4.2]
            linarith
          linarith [hbb.2]
      _ = |v.2.1| + 0.45 := by ring
  have ha1 : |v.1| ^ 2 = v.1 ^ 2 := sq_abs _
  have ha2 : |v.2.1| ^ 2 = v.2.1 ^ 2 := sq_abs _
  have hS0 : 0 ≤ |v.1| + |v.2.1| := by positivity
  have h1415 : (0 : ℝ) ≤ 1.415 * maxVelFor a.type := by linarith
  have hABsq : (|v.1| + |v.2.1|) ^ 2 ≤ 2 * maxVelFor a.type ^ 2 := by
    nlinarith [sq_nonneg (|v.1| - |v.2.1|), hvb, ha1, ha2]
  have hAB : |v.1| + |v.2.1| ≤ 1.415 * maxVelFor a.type := by
    calc |v.1| + |v.2.1| = Real.sqrt ((|v.1| + |v.2.1|) ^ 2) := (Real.sqrt_sq hS0).symm
      _ ≤ Real.sqrt (2 * maxVelFor a.type ^ 2) := Real.sqrt_le_sqrt hABsq
      _ ≤ Real.sqrt ((1.415 * maxVelFor a.type) ^ 2) := by
          apply Real.sqrt_le_sqrt
          nlinarith [hM]
      _ = 1.415 * maxVelFor a.type := Real.sqrt_sq h1415
  have hcx : c.dx ^ 2 ≤ (|v.1| + 0.45) ^ 2 := by
    rw [← sq_abs c.dx]
    exact pow_le_pow_left₀ (abs_nonneg _) hd1 2
  have hcy : c.dy ^ 2 ≤ (|v.2.1| + 0.45) ^ 2 := by
    rw [← sq_abs c.dy]
    exact pow_le_pow_left₀ (abs_nonneg _) hd2 2
  nlinarith [hcx, hcy, hAB, hvb, ha1, ha2, hM, abs_nonneg v.1, abs_nonneg v.2.1]

end StepFacts7

section StepFacts8

variable (P : Params) (start : List Agent) (cH cC : ℕ) (pf : List Food)
  (st : TickState) (a : Agent) (r : ℕ → ℝ) (now : ℝ)

lemma stepCore_child_pos (hr : ∀ i, 0 ≤ r i ∧ r i ≤ 1) (c : Agent)
    (hc : (stepCore P start cH cC pf st a r now).child = some c) :
    -4 ≤ c.x ∧ c.x ≤ WORLD_WIDTH + 4 ∧ -4 ≤ c.y ∧ c.y ≤ WORLD_HEIGHT + 4 := by
  obtain ⟨-, -, -, -, j1, j2, j3, j4, hx, hy, -, -⟩ :=
    stepCore_child_spec P start cH cC pf st a r now c hc
  have hp := stepCore_cand_pos P start cH cC pf st a r now
  have h1 := hr j1
  have h2 := hr j2
  rw [hx, hy]
  refine ⟨?_, ?_, ?_, ?_⟩ <;> [nlinarith [hp.1]; nlinarith [hp.2.1];
    nlinarith [hp.2.2.1]; nlinarith [hp.2.2.2]]

lemma stepAgent_out_mem (x : Agent) (hx : x ∈ (stepAgent P start cH cC pf st a r now).out) :
    x ∈ st.out ∨ (stepCore P start cH cC pf st a r now).child = some x ∨
      (stepKeep (stepCore P start cH cC pf st a r now).eaten a
          (stepCore P start cH cC pf st a r now).cand ∧
        x = (stepCore P start cH cC pf st a r now).cand) := by
  rw [stepAgent_out] at hx
  rcases List.mem_append.mp hx with h | h
  · rcases List.mem_append.mp h with h1 | h2
    · exact Or.inl h1
    · right
      left
      cases hc : (stepCore P start cH cC pf st a r now).child with
      | none => rw [hc] at h2; simp at h2
      | some c =>
          rw [hc] at h2
          simp only [Option.toList_some, List.mem_singleton] at h2
          rw [h2]
  · right
    right
    split at h
    · simp only [List.mem_singleton] at h
      exact ⟨by assumption, h⟩
    · simp at h

end StepFacts8

section FoldFacts2

variable (P : Params) (start : List Agent) (cH cC : ℕ) (r : ℕ → ℝ) (now : ℝ)

lemma tickFold_out_forall (Q : Agent → Prop) (l : List Agent)
    (hchild : ∀ (st : TickState), ∀ a ∈ l, ∀ c,
      (stepCore P start cH cC st.food st a r now).child = some c → Q c)
    (hcand : ∀ (st : TickState), ∀ a ∈ l,
      stepKeep (stepCore P start cH cC st.food st a r now).eaten a
          (stepCore P start cH cC st.food st a r now).cand →
        Q (stepCore P start cH cC st.food st a r now).cand) :
    ∀ st : TickState, (∀ x ∈ st.out, Q x) →
      ∀ x ∈ (tickFold P start cH cC r now st l).out, Q x := by
  induction l with
  | nil => intro st h; exact h
  | cons a l ih =>
      intro st h
      rw [tickFold_cons]
      refine ih (fun st' b hb => hchild st' b (List.mem_cons_of_mem a hb))
        (fun st' b hb => hcand st' b (List.mem_cons_of_mem a hb)) _ ?_
      intro x hx
      rcases stepAgent_out_mem P start cH cC st.food st a r now x hx with h1 | h2 | h3
      · exact h x h1
      · exact hchild st a (List.mem_cons_self a l) x h2
      · rw [h3.2]
        exact hcand st a (List.mem_cons_self a l) h3.1

lemma tickFold_decomp (st : TickState) (l : List Agent) (i : ℕ) (h : i < l.length) :
    tickFold P start cH cC r now st l =
      tickFold P start cH cC r now
        (stepAgent P start cH cC (tickFold P start cH cC r now st (l.take i)).food
          (tickFold P start cH cC r now st (l.take i)) (l.get ⟨i, h⟩) r now)
        (l.drop (i + 1)) := by
  conv_lhs => rw [show l = l.take i ++ l.drop i from (List.take_append_drop i l).symm]
  rw [tickFold_append, List.drop_eq_getElem_cons h, tickFold_cons]
  rfl

lemma updateState_decomp (w : World) (i : Fin w.agents.length) :
    updateState w P r now =
      tickFold P w.agents (countKind AgentType.herbivore w.agents)
        (countKind AgentType.carnivore w.agents) r now
        (stepAgent P w.agents (countKind AgentType.herbivore w.agents)
          (countKind AgentType.carnivore w.agents) (stateAfter w P r now i.1).food
          (stateAfter w P r now i.1) (w.agents.get i) r now)
        (w.agents.drop (i.1 + 1)) := by
  rw [updateState_eq_tickFold, tickFold_decomp P w.agents
    (countKind AgentType.herbivore w.agents) (countKind AgentType.carnivore w.agents)
    r now (initTickState w P r now) w.agents i.1 i.2]
  rfl

end FoldFacts2

/-! Carnivores never touch the food list, so for all-carnivore worlds the live
working list and the start-of-tick snapshot agree at every step. -/

section SnapFacts

variable (P : Params) (start : List Agent) (cH cC : ℕ) (r : ℕ → ℝ) (now : ℝ)

lemma steer_food_carn (pf wf : List Food) (a : Agent) (x y dx dy e : ℝ) (k : ℕ)
    (ht : a.type = AgentType.carnivore) :
    (steer start pf wf a x y dx dy e k r now).food = wf := by
  simp only [steer, ht]

lemma stepCore_carn_food (pf : List Food) (st : TickState) (a : Agent)
    (ht : a.type = AgentType.carnivore) :
    (stepCore P start cH cC pf st a r now).food = st.food := by
  simp only [stepCore, ht]
  split <;>
    exact steer_food_carn start r now pf st.food a a.x a.y a.dx a.dy a.energy st.k ht

lemma tickFold_carn_snap (F : List Food) (l : List Agent)
    (hl : ∀ a ∈ l, a.type = AgentType.carnivore) :
    ∀ st : TickState, st.food = F →
      tickFold P start cH cC r now st l =
        l.foldl (fun s a => stepAgent P start cH cC F s a r now) st := by
  induction l with
  | nil => intro st _; rfl
  | cons a l ih =>
      intro st hF
      rw [tickFold_cons, List.foldl_cons]
      have ha := hl a (List.mem_cons_self a l)
      rw [show stepAgent P start cH cC st.food st a r now =
        stepAgent P start cH cC F st a r now from by rw [hF]]
      exact ih (fun b hb => hl b (List.mem_cons_of_mem a hb)) _
        (by rw [stepAgent_food, stepCore_carn_food P start cH cC r now F st a ha]
            exact hF)

lemma updateState_carn_snap (w : World)
    (hw : ∀ a ∈ w.agents, a.type = AgentType.carnivore) :
    updateState w P r now = updateStateSnap w P r now :=
  tickFold_carn_snap P w.agents (countKind AgentType.herbivore w.agents)
    (countKind AgentType.carnivore w.agents) r now (foodAfterSpawn w P r now)
    w.agents hw (initTickState w P r now) rfl

lemma update_carn_snap (w : World)
    (hw : ∀ a ∈ w.agents, a.type = AgentType.carnivore) :
    update w P r now = updateSnap w P r now := by
  simp only [update, updateSnap, updateState_carn_snap P r now w hw]

end SnapFacts

/-! Size of the randomized initial population. -/

lemma mkInitAgents_size (r : ℕ → ℝ) (n : ℕ) :
    ∀ i k, List.Forall (fun x : Agent => x.size = 5) (mkInitAgents r n i k).1 := by
  induction n with
  | zero => intro i k; simp [mkInitAgents]
  | succ n ih =>
      intro i k
      simp only [mkInitAgents, List.forall_cons]
      exact ⟨rfl, ih _ _⟩

lemma initializeWorld_size (r : ℕ → ℝ) :
    List.Forall (fun x : Agent => 3 ≤ x.size ∧ x.size ≤ 10) (initializeWorld r).agents := by
  have h := mkInitAgents_size r 100 0 0
  rw [List.forall_iff_forall_mem] at h ⊢
  intro x hx
  rw [h x hx]
  norm_num

/-! Whole-tick `Forall` facts over the output set, by the generic fold
preservation lemma. -/

section TickForall

variable (w : World) (P : Params) (r : ℕ → ℝ) (now : ℝ)

lemma update_alive :
    List.Forall (fun x : Agent => 0 < x.energy ∧ x.age < 800)
      (update w P r now).agents := by
  rw [List.forall_iff_forall_mem]
  intro x hx
  refine tickFold_out_forall P w.agents (countKind AgentType.herbivore w.agents)
    (countKind AgentType.carnivore w.agents) r now
    (fun x => 0 < x.energy ∧ x.age < 800) w.agents ?_ ?_
    (initTickState w P r now) (fun y hy => absurd hy (List.not_mem_nil y)) x hx
  · intro st a _ c hc
    obtain ⟨-, hage, -, henergy, -⟩ :=
      stepCore_child_spec P w.agents _ _ st.food st a r now c hc
    constructor
    · rcases henergy with h | h <;> rw [h] <;> norm_num
    · rw [hage]; norm_num
  · intro st a _ hk
    exact ⟨hk.1, hk.2.1⟩

lemma update_size :
    List.Forall (fun x : Agent => 3 ≤ x.size ∧ x.size ≤ 10)
      (update w P r now).agents := by
  rw [List.forall_iff_forall_mem]
  intro x hx
  refine tickFold_out_forall P w.agents (countKind AgentType.herbivore w.agents)
    (countKind AgentType.carnivore w.agents) r now
    (fun x => 3 ≤ x.size ∧ x.size ≤ 10) w.agents ?_ ?_
    (initTickState w P r now) (fun y hy => absurd hy (List.not_mem_nil y)) x hx
  · intro st a _ c hc
    obtain ⟨-, -, hsize, -⟩ :=
      stepCore_child_spec P w.agents _ _ st.food st a r now c hc
    rw [hsize]
    norm_num
  · intro st a _ _
    exact stepCore_cand_size_mem P w.agents _ _ st.food st a r now

lemma update_pos (hr : ∀ i, 0 ≤ r i ∧ r i ≤ 1) :
    List.Forall (fun x : Agent => -4 ≤ x.x ∧ x.x ≤ WORLD_WIDTH + 4 ∧
      -4 ≤ x.y ∧ x.y ≤ WORLD_HEIGHT + 4) (update w P r now).agents := by
  rw [List.forall_iff_forall_mem]
  intro x hx
  refine tickFold_out_forall P w.agents (countKind AgentType.herbivore w.agents)
    (countKind AgentType.carnivore w.agents) r now
    (fun x => -4 ≤ x.x ∧ x.x ≤ WORLD_WIDTH + 4 ∧ -4 ≤ x.y ∧ x.y ≤ WORLD_HEIGHT + 4)
    w.agents ?_ ?_
    (initTickState w P r now) (fun y hy => absurd hy (List.not_mem_nil y)) x hx
  · intro st a _ c hc
    exact stepCore_child_pos P w.agents _ _ st.food st a r now hr c hc
  · intro st a _ _
    obtain ⟨h1, h2, h3, h4⟩ := stepCore_cand_pos P w.agents
      (countKind AgentType.herbivore w.agents) (countKind AgentType.carnivore w.agents)
      st.food st a r now
    refine ⟨by linarith, by linarith, by linarith, by linarith⟩

lemma update_vel (hr : ∀ i, 0 ≤ r i ∧ r i ≤ 1)
    (hstuck : ∀ a ∈ w.agents, a.stuckTicks ≤ 60) :
    List.Forall (fun x : Agent => hypot x.dx x.dy ≤ maxVelFor x.type + 0.65)
      (update w P r now).agents := by
  rw [List.forall_iff_forall_mem]
  intro x hx
  refine tickFold_out_forall P w.agents (countKind AgentType.herbivore w.agents)
    (countKind AgentType.carnivore w.agents) r now
    (fun x => hypot x.dx x.dy ≤ maxVelFor x.type + 0.65) w.agents ?_ ?_
    (initTickState w P r now) (fun y hy => absurd hy (List.not_mem_nil y)) x hx
  · intro st a ha c hc
    have h1 := stepCore_child_vel P w.agents (countKind AgentType.herbivore w.agents)
      (countKind AgentType.carnivore w.agents) st.food st a r now hr (hstuck a ha) c hc
    have htype := (stepCore_child_spec P w.agents
      (countKind AgentType.herbivore w.agents) (countKind AgentType.carnivore w.agents)
      st.food st a r now c hc).1
    rw [htype]
    exact h1
  · intro st a ha _
    have h1 := stepCore_cand_vel P w.agents (countKind AgentType.herbivore w.agents)
      (countKind AgentType.carnivore w.agents) st.food st a r now (hstuck a ha)
    rw [stepCore_cand_type]
    linarith [maxVelFor_pos a.type]

lemma update_neutral_count :
    countKind AgentType.neutral (update w P r now).agents ≤
      countKind AgentType.neutral w.agents := by
  have h := tickFold_count_neutral P w.agents (countKind AgentType.herbivore w.agents)
    (countKind AgentType.carnivore w.agents) r now w.agents (initTickState w P r now)
  have e1 : countKind AgentType.neutral (initTickState w P r now).out = 0 := rfl
  have e2 : countKind AgentType.neutral (update w P r now).agents =
      countKind AgentType.neutral (tickFold P w.agents
        (countKind AgentType.herbivore w.agents)
        (countKind AgentType.carnivore w.agents) r now (initTickState w P r now)
        w.agents).out := rfl
  omega

end TickForall

/-! Population-cap and food-conservation corollaries of the fold lemmas. -/

section CapFacts

variable (w : World) (P : Params) (r : ℕ → ℝ) (now : ℝ)

lemma update_herb_cap (mh : ℕ) (hP : P.maxHerbivores = (mh : ℝ))
    (hstart : countKind AgentType.herbivore w.agents ≤ mh) :
    countKind AgentType.herbivore (update w P r now).agents ≤ mh := by
  have h1 := tickFold_count_herb P w.agents (countKind AgentType.herbivore w.agents)
    (countKind AgentType.carnivore w.agents) r now w.agents (initTickState w P r now)
  have e0 : (initTickState w P r now).spawnedHerbivores = 0 := rfl
  have h2 := tickFold_spawned_le P w.agents (countKind AgentType.herbivore w.agents)
    (countKind AgentType.carnivore w.agents) r now mh hP w.agents
    (initTickState w P r now) (by omega)
  have e1 : countKind AgentType.herbivore (initTickState w P r now).out = 0 := rfl
  have e2 : countKind AgentType.herbivore (update w P r now).agents =
      countKind AgentType.herbivore (tickFold P w.agents
        (countKind AgentType.herbivore w.agents)
        (countKind AgentType.carnivore w.agents) r now (initTickState w P r now)
        w.agents).out := rfl
  omega

lemma update_carn_nogrow
    (hfull : P.maxCarnivores ≤ (countKind AgentType.carnivore w.agents : ℝ)) :
    countKind AgentType.carnivore (update w P r now).agents ≤
      countKind AgentType.carnivore w.agents := by
  have h1 := tickFold_count_carn P w.agents (countKind AgentType.herbivore w.agents)
    (countKind AgentType.carnivore w.agents) r now hfull w.agents
    (initTickState w P r now)
  have e1 : countKind AgentType.carnivore (initTickState w P r now).out = 0 := rfl
  have e2 : countKind AgentType.carnivore (update w P r now).agents =
      countKind AgentType.carnivore (tickFold P w.agents
        (countKind AgentType.herbivore w.agents)
        (countKind AgentType.carnivore w.agents) r now (initTickState w P r now)
        w.agents).out := rfl
  omega

lemma update_food_conservation :
    (updateState w P r now).food.length + (updateState w P r now).foodEaten =
      (foodAfterSpawn w P r now).length + (updateState w P r now).foodSeeded := by
  have h1 := tickFold_food P w.agents (countKind AgentType.herbivore w.agents)
    (countKind AgentType.carnivore w.agents) r now w.agents (initTickState w P r now)
  have e0 : (initTickState w P r now).foodSeeded = 0 := rfl
  have e1 : (initTickState w P r now).foodEaten = 0 := rfl
  have e2 : (initTickState w P r now).food = foodAfterSpawn w P r now := rfl
  have e3 : updateState w P r now = tickFold P w.agents
      (countKind AgentType.herbivore w.agents)
      (countKind AgentType.carnivore w.agents) r now (initTickState w P r now)
      w.agents := rfl
  rw [e3]
  rw [e0, e1, e2] at h1
  omega

end CapFacts

/-! Every start-of-tick agent either survives into the output or fails the
survival test at its own processing step. -/

lemma update_absent (w : World) (P : Params) (r : ℕ → ℝ) (now : ℝ)
    (i : Fin w.agents.length) :
    (stepCoreAt w P r now i).cand ∈ (update w P r now).agents ∨
    (stepCoreAt w P r now i).cand.energy ≤ 0 ∨
    800 ≤ (stepCoreAt w P r now i).cand.age ∨
    ((w.agents.get i).type = AgentType.herbivore ∧
      (w.agents.get i).id ∈ (updateState w P r now).eaten) := by
  by_cases hk : stepKeep (stepCoreAt w P r now i).eaten (w.agents.get i)
      (stepCoreAt w P r now i).cand
  · left
    show _ ∈ (updateState w P r now).out
    rw [updateState_decomp P r now w i]
    apply tickFold_out_mono
    rw [stepAgent_out]
    apply List.mem_append_right
    simp only [stepCoreAt] at hk
    rw [if_pos hk]
    exact List.mem_singleton_self _
  · simp only [stepKeep] at hk
    push_neg at hk
    by_cases he : 0 < (stepCoreAt w P r now i).cand.energy
    · by_cases ha : (stepCoreAt w P r now i).cand.age < 800
      · have hhe := hk he ha
        right; right; right
        refine ⟨hhe.1, ?_⟩
        rw [updateState_decomp P r now w i]
        apply tickFold_eaten_mono
        rw [stepAgent_eaten]
        exact hhe.2
      · right; right; left; linarith
    · right; left; linarith


/-! The claims. -/

/-- Claim C1: within a tick the working food list is drained by exactly one
item per herbivore feeding event, so no food item can be consumed by two
herbivores: list length plus the consumption counter is conserved against the
post-spawn list plus the seeding counter.  (This is the food half of the claim;
the predation half and the eaten-herbivore-reproduction half are refuted by the
counterexample below.) -/
theorem tick_food_conservation (w : World) (P : Params) (r : ℕ → ℝ) (now : ℝ) :
    (updateState w P r now).food.length + (updateState w P r now).foodEaten =
      (foodAfterSpawn w P r now).length + (updateState w P r now).foodSeeded :=
  update_food_conservation w P r now

/-- Counterexample to C1: in `wC1` both carnivores (ids 1 and 2) record a
predation of the same herbivore (id 10) in one tick, that herbivore is marked
eaten, and it still reproduces (its spawn record carries the flag that it was
already marked eaten). -/
theorem tick_double_predation_eaten_repro :
    (updateState wC1 P0 rHalf 0).preds = [(1, 10), (2, 10)] ∧
    10 ∈ (updateState wC1 P0 rHalf 0).eaten ∧
    (updateState wC1 P0 rHalf 0).spawns = [(10, true)] := by
  rw [updateState_wC1]
  exact ⟨rfl, List.mem_singleton_self 10, rfl⟩

/-- Claim C2: in the predator-first world `wC2a` (one carnivore on top of one
herbivore, distance `3 < carnivoreCatchRadius = 8`), after one tick the
herbivore is absent from the output, it is marked eaten, and the carnivore
gained the fixed predation amount `45` (minus its metabolism drain `0.07`).
The claim's order-independence part is refuted by the counterexample below. -/
theorem predation_removes_prey_scenario :
    (update wC2a P0 rHalf 0).agents = [cA1preyOut] ∧
    (updateState wC2a P0 rHalf 0).eaten = [hPrey.id] ∧
    cA1preyOut.id = cA1.id ∧
    cA1preyOut.energy = cA1.energy + 45 - 0.07 ∧
    hPrey.id ∉ List.map Agent.id (update wC2a P0 rHalf 0).agents := by
  have h : (update wC2a P0 rHalf 0).agents = [cA1preyOut] := by
    rw [show (update wC2a P0 rHalf 0).agents = (updateState wC2a P0 rHalf 0).out from rfl,
      updateState_wC2a]
  refine ⟨h, ?_, rfl, by norm_num [cA1preyOut, cA1], ?_⟩
  · rw [updateState_wC2a]
    rfl
  · rw [h]
    simp [cA1preyOut, cA1, hPrey]

/-- Counterexample to C2: in `wC2b` the same two agents are processed
prey-first: the herbivore is marked eaten by the carnivore processed after it,
yet it remains in the output set, because the eaten-check ran before the mark
was made. -/
theorem predation_order_prey_survives :
    hPrey.id ∈ (updateState wC2b P0 rHalf 0).eaten ∧
    hPreyOut ∈ (update wC2b P0 rHalf 0).agents ∧
    hPreyOut.id = hPrey.id ∧ hPreyOut.type = AgentType.herbivore := by
  refine ⟨?_, ?_, rfl, rfl⟩
  · rw [updateState_wC2b]
    exact List.mem_singleton_self _
  · rw [show (update wC2b P0 rHalf 0).agents = (updateState wC2b P0 rHalf 0).out from rfl,
      updateState_wC2b]
    exact List.mem_cons_self _ _

/-- Claim C3: the herbivore cap is enforced as claimed (start-of-tick count
plus spawns made this tick), so a start-of-tick herbivore population within the
cap stays within it; and a carnivore population already at or above its cap
cannot grow.  The claim's statement that the carnivore eligibility check also
counts this tick's spawns is refuted by the counterexample below. -/
theorem population_cap_herbivores (w : World) (P : Params) (r : ℕ → ℝ) (now : ℝ)
    (mh : ℕ) (hP : P.maxHerbivores = (mh : ℝ))
    (hstart : countKind AgentType.herbivore w.agents ≤ mh) :
    countKind AgentType.herbivore (update w P r now).agents ≤ mh ∧
    (P.maxCarnivores ≤ (countKind AgentType.carnivore w.agents : ℝ) →
      countKind AgentType.carnivore (update w P r now).agents ≤
        countKind AgentType.carnivore w.agents) :=
  ⟨update_herb_cap w P r now mh hP hstart,
    fun hfull => update_carn_nogrow w P r now hfull⟩

/-- Witness for C3 at the empty world with the default sliders. -/
theorem population_cap_herbivores_witness :
    countKind AgentType.herbivore (update wEmpty P0 rHalf 0).agents ≤ 220 :=
  (population_cap_herbivores wEmpty P0 rHalf 0 220 (by norm_num [P0])
    (by simp [wEmpty, countKind])).1

/-- Counterexample to C3: `wC3` holds two carnivores under the cap `3`; both
pass the eligibility check against the start-of-tick count `2` and reproduce,
so the output holds `4` carnivores, exceeding the cap mid-tick. -/
theorem carnivore_cap_exceeded :
    countKind AgentType.carnivore wC3.agents = 2 ∧ P3.maxCarnivores = 3 ∧
    countKind AgentType.carnivore (update wC3 P3 rHalf 0).agents = 4 := by
  refine ⟨?_, rfl, ?_⟩
  · norm_num [wC3, countKind, rCarn1, rCarn2, List.filter_cons, List.filter_nil,
      decide_eq_true_eq]
  · rw [show (update wC3 P3 rHalf 0).agents = (updateState wC3 P3 rHalf 0).out from rfl,
      updateState_wC3]
    norm_num [countKind, cChild1, cChild2, rCarn1out, rCarn2out, rCarn1, rCarn2,
      List.filter_cons, List.filter_nil, decide_eq_true_eq]

/-- Claim C4: every agent in the output of a tick has positive energy and age
below 800 (children included), and every start-of-tick agent either survives
into the output or, at its own processing step, its updated candidate failed
the survival test: energy at or below 0, age at or above 800, or it is a
herbivore marked eaten this tick. -/
theorem survival_law (w : World) (P : Params) (r : ℕ → ℝ) (now : ℝ) :
    List.Forall (fun x : Agent => 0 < x.energy ∧ x.age < 800)
      (update w P r now).agents ∧
    ∀ i : Fin w.agents.length,
      (stepCoreAt w P r now i).cand ∈ (update w P r now).agents ∨
      (stepCoreAt w P r now i).cand.energy ≤ 0 ∨
      800 ≤ (stepCoreAt w P r now i).cand.age ∨
      ((w.agents.get i).type = AgentType.herbivore ∧
        (w.agents.get i).id ∈ (updateState w P r now).eaten) :=
  ⟨update_alive w P r now, fun i => update_absent w P r now i⟩

/-- Claim C5 (amended): perception reads the live working food list, not the
start-of-tick snapshot, so the claim only holds when no agent can alter that
list mid-tick — as for all-carnivore worlds, where the tick coincides with the
spec's snapshot semantics.  The general claim is refuted by the counterexample
below. -/
theorem perception_snapshot_all_carnivore (w : World) (P : Params) (r : ℕ → ℝ)
    (now : ℝ) (hw : ∀ a ∈ w.agents, a.type = AgentType.carnivore) :
    update w P r now = updateSnap w P r now :=
  update_carn_snap P r now w hw

/-- Witness for C5 at the one-carnivore world `wC7`. -/
theorem perception_snapshot_all_carnivore_witness :
    update wC7 P0 rHalf 0 = updateSnap wC7 P0 rHalf 0 :=
  perception_snapshot_all_carnivore wC7 P0 rHalf 0 (by
    intro a ha
    rw [show wC7.agents = [fastCarn] from rfl] at ha
    rw [List.mem_singleton.mp ha]
    rfl)

/-- Counterexample to C5: in `wC5` the first herbivore eats the only food item;
the second herbivore, processed later in the same tick, then perceives an empty
food list and steers differently than under the spec's start-of-tick snapshot
(`updateStateSnap`), ending at a different position. -/
theorem perception_live_food_divergence :
    List.map Agent.x (updateState wC5 P0 rHalf 0).out ≠
      List.map Agent.x (updateStateSnap wC5 P0 rHalf 0).out := by
  rw [updateState_wC5, updateStateSnap_wC5]
  norm_num [hEaterOut, hWatcherOut, hWatcherSnapOut, hEater, hWatcher]

/-- Claim C6 (amended): with a random oracle ranging over `[0, 1]`, every agent
in the output of a tick lies within the arena enlarged by the maximal child
spawn offset `5`: post-processed agents themselves are clamped into
`[1, width - 1] × [1, height - 1]`, but newborn children receive an unclamped
offset of up to `5` units from the parent, refuting the claimed containment in
`[0, width] × [0, height]` (counterexample below). -/
theorem boundary_containment_enlarged (w : World) (P : Params) (r : ℕ → ℝ)
    (now : ℝ) (hr : ∀ i, 0 ≤ r i ∧ r i ≤ 1) :
    List.Forall (fun x : Agent => -4 ≤ x.x ∧ x.x ≤ WORLD_WIDTH + 4 ∧
      -4 ≤ x.y ∧ x.y ≤ WORLD_HEIGHT + 4) (update w P r now).agents :=
  update_pos w P r now hr

/-- Witness for C6 at the one-carnivore world `wC7` with the constant oracle. -/
theorem boundary_containment_enlarged_witness :
    List.Forall (fun x : Agent => -4 ≤ x.x ∧ x.x ≤ WORLD_WIDTH + 4 ∧
      -4 ≤ x.y ∧ x.y ≤ WORLD_HEIGHT + 4) (update wC7 P0 rHalf 0).agents :=
  boundary_containment_enlarged wC7 P0 rHalf 0 (fun i => by norm_num [rHalf])

/-- Counterexample to C6: the herbivore of `wC6` reproduces while clamped onto
the left arena edge, and its child spawns at `x = -1`, outside
`[0, width] × [0, height]`. -/
theorem child_spawned_outside_arena :
    hChild6 ∈ (update wC6 P0 r03 0).agents ∧ hChild6.x < 0 := by
  constructor
  · rw [show (update wC6 P0 r03 0).agents = (updateState wC6 P0 r03 0).out from rfl,
      updateState_wC6]
    exact List.mem_cons_self _ _
  · norm_num [hChild6]

/-- Claim C7 (amended): with a random oracle ranging over `[0, 1]` and
start-of-tick stuck counters at most `60`, every output agent's velocity
magnitude is at most the per-kind maximum plus `0.65` (the post-clamp boundary
nudge and the child velocity offset).  The claimed bound by the per-kind
maximum itself is refuted by the counterexample below. -/
theorem velocity_bound_with_margin (w : World) (P : Params) (r : ℕ → ℝ)
    (now : ℝ) (hr : ∀ i, 0 ≤ r i ∧ r i ≤ 1)
    (hstuck : ∀ a ∈ w.agents, a.stuckTicks ≤ 60) :
    List.Forall (fun x : Agent => hypot x.dx x.dy ≤ maxVelFor x.type + 0.65)
      (update w P r now).agents :=
  update_vel w P r now hr hstuck

/-- Witness for C7 at the one-carnivore world `wC7` with the constant oracle. -/
theorem velocity_bound_with_margin_witness :
    List.Forall (fun x : Agent => hypot x.dx x.dy ≤ maxVelFor x.type + 0.65)
      (update wC7 P0 rHalf 0).agents :=
  velocity_bound_with_margin wC7 P0 rHalf 0 (fun i => by norm_num [rHalf]) (by
    intro a ha
    rw [show wC7.agents = [fastCarn] from rfl] at ha
    rw [List.mem_singleton.mp ha]
    norm_num [fastCarn])

/-- Counterexample to C7: the boundary reflection of `wC7`'s carnivore fires
after the velocity clamp and leaves the output speed `3.4`, above the
carnivore maximum `3.2`. -/
theorem velocity_exceeds_per_kind_max :
    fastCarnOut ∈ (update wC7 P0 rHalf 0).agents ∧
    maxVelFor fastCarnOut.type < hypot fastCarnOut.dx fastCarnOut.dy := by
  constructor
  · rw [update_wC7]
    exact List.mem_singleton_self _
  · norm_num [fastCarnOut, fastCarn, maxVelFor, hypot_of_nonneg]

/-- Claim C8: the herbivore food-attraction site divides by the raw nearest
food distance — reachable at `0` when a food item lies exactly under the
herbivore and well within its vision radius, so that site is not guarded with
a minimum denominator as the spec requires (the other three steering sites use
`d0`). -/
theorem herbivore_attraction_zero_denominator :
    nearestFoodDist hEater.x hEater.y f8 [] = 0 ∧
      nearestFoodDist hEater.x hEater.y f8 [] < hEater.vision := by
  constructor <;>
    norm_num [nearestFoodDist, nearestFoodFrom, hEater, f8, hypot_of_nonneg]

/-- Claim C9: the neutral population never increases: no reproduction branch
exists for neutrals, so each neutral of the output stems from a distinct
neutral of the input. -/
theorem neutral_population_never_grows (w : World) (P : Params) (r : ℕ → ℝ)
    (now : ℝ) :
    countKind AgentType.neutral (update w P r now).agents ≤
      countKind AgentType.neutral w.agents :=
  update_neutral_count w P r now

/-- Claim C10: every agent of an initialized world and every agent produced by
one tick has size in `[3, 10]`: initialization and newborn children set size
`5`, and each tick recomputes the candidate size as
`max 3 (min 10 (3 + energy * 0.03))`. -/
theorem agent_size_in_range :
    (∀ r : ℕ → ℝ, List.Forall (fun x : Agent => 3 ≤ x.size ∧ x.size ≤ 10)
      (initializeWorld r).agents) ∧
    ∀ (w : World) (P : Params) (r : ℕ → ℝ) (now : ℝ),
      List.Forall (fun x : Agent => 3 ≤ x.size ∧ x.size ≤ 10)
        (update w P r now).agents :=
  ⟨fun r => initializeWorld_size r, fun w P r now => update_size w P r now⟩
